import Mathlib

/-!
Verification of the funding-DSL comparison harness (`demo_textx_vs_antlr.py`)
and of the parser/metamodel core it depends on.

The harness file itself provides: `create_sample_dsl`, `benchmark_parser`,
`compare_configurations`, `analyze_configuration`, `validate_configurations`,
`demonstrate_visitor_pattern` and `main`; those are embedded directly from the
source. The metamodel entity types, the `parse` entry point, the validator and
the visitor dispatch live in modules (`metamodel.funding_metamodel`,
`textual.funding_dsl_parser`, `textual_textx`) that are not part of the visible
repository slice, so they are modelled from the specification (its data model
in section 3, grammar in section 4.2, model builder in section 4.3, validator
in section 4.4, visitor dispatch in section 4.5).

Decimal amounts and wall-clock durations are modelled as rationals.
-/

namespace FundingDSL

/-- Modelled from the spec: currency codes are a closed enumeration
("preferred currency (enumerated: e.g. EUR, USD, GBP)"). -/
inductive Currency where
  | EUR | USD | GBP
deriving Repr, DecidableEq

/-- Modelled from the spec: the printable code of a currency (the Python
enum's `.value`). -/
def Currency.value : Currency → String
  | .EUR => "EUR"
  | .USD => "USD"
  | .GBP => "GBP"

/-- Modelled from the spec: "CurrencyAmount: a value object pairing a
decimal magnitude with a currency code". The magnitude is a rational. -/
structure CurrencyAmount where
  value : ℚ
  currency : Currency
deriving Repr, DecidableEq

/-- Modelled from the spec: "Beneficiary: name (required, non-empty string),
optional email, optional github handle, optional website URL, optional
description". -/
structure Beneficiary where
  name : String
  email : Option String
  github_username : Option String
  website : Option String
  description : Option String
deriving Repr, DecidableEq

/-- Modelled from the spec: "platform (enumerated: github_sponsors, patreon,
ko_fi, custom, ...)". -/
inductive Platform where
  | github_sponsors | patreon | ko_fi | custom
deriving Repr, DecidableEq

/-- Modelled from the spec: the printable name of a platform (the Python
enum's `.value`). -/
def Platform.value : Platform → String
  | .github_sponsors => "github_sponsors"
  | .patreon => "patreon"
  | .ko_fi => "ko_fi"
  | .custom => "custom"

/-- Modelled from the spec: "type (enumerated: one_time, recurring, both)". -/
inductive SourceType where
  | one_time | recurring | both
deriving Repr, DecidableEq

/-- Modelled from the spec: "FundingSource: platform, username or display
name, type, is_active (boolean, default true), optional URL (required when
platform = custom), optional mapping of free-form string config keys to
string values". The mapping keeps declaration order. -/
structure FundingSource where
  platform : Platform
  username : String
  funding_type : SourceType
  is_active : Bool
  custom_url : Option String
  config : List (String × String)
deriving Repr, DecidableEq

/-- Modelled from the spec: "Tier: name (required), amount (currency-tagged
decimal, required), optional description, optional max_sponsors (positive
integer), ordered list of benefit strings". -/
structure FundingTier where
  name : String
  amount : CurrencyAmount
  description : Option String
  max_sponsors : Option ℕ
  benefits : List String
deriving Repr, DecidableEq

/-- Modelled from the spec: "Goal: name (required), target_amount
(currency-tagged decimal, required), current_amount (currency-tagged decimal,
default 0), optional deadline (date), optional description". Deadlines are
kept as their ISO date strings. -/
structure FundingGoal where
  name : String
  target_amount : CurrencyAmount
  current_amount : CurrencyAmount
  deadline : Option String
  description : Option String
deriving Repr, DecidableEq

/-- Modelled from the spec: "Configuration: root entity. Attributes: project
name, description, preferred currency, optional min/max amount, ordered list
of Beneficiary, ordered list of FundingSource, ordered list of Tier, ordered
list of Goal". -/
structure Configuration where
  project_name : String
  description : String
  preferred_currency : Currency
  min_amount : Option CurrencyAmount
  max_amount : Option CurrencyAmount
  beneficiaries : List Beneficiary
  funding_sources : List FundingSource
  tiers : List FundingTier
  goals : List FundingGoal
deriving Repr, DecidableEq

/-- Modelled from the spec: the error taxonomy of section 7 — "LexError
(unrecognized character/token at a position), ParseError (structurally
invalid token sequence), ModelBuildError (literal coercion failure)". -/
inductive FundingError where
  | lexError (msg : String)
  | parseError (msg : String)
  | modelBuildError (msg : String)
deriving Repr, DecidableEq

/-- Modelled from the spec: token kinds of section 4.1 — identifiers/keywords,
string literals, numeric literals, block delimiters, list delimiters and comma
separators (booleans arrive as the identifiers true/false). -/
inductive Token where
  | str (s : String)
  | num (q : ℚ)
  | ident (s : String)
  | lbrace | rbrace | lbrack | rbrack | comma
deriving Repr, DecidableEq

/-- Whitespace characters skipped by the lexer. -/
def isWs (c : Char) : Bool :=
  c = ' ' || c = '\n' || c = '\t' || c = '\r'

/-- Characters allowed inside an identifier or keyword. -/
def isIdentCh (c : Char) : Bool :=
  c.isAlpha || c.isDigit || c = '_'

/-- The natural number denoted by a list of decimal digit characters. -/
def digitsToNat (ds : List Char) : ℕ :=
  ds.foldl (fun n c => 10 * n + (c.toNat - 48)) 0

/-- The rational denoted by an integer digit part and a fractional digit
part, as in the literal 2.0. -/
def decimalToRat (intDs fracDs : List Char) : ℚ :=
  (digitsToNat intDs : ℚ) + (digitsToNat fracDs : ℚ) / ((10 : ℚ) ^ fracDs.length)

/-- Modelled from the spec: the lexer state between two characters — either
between tokens, or inside a string literal, a numeric literal (integer part,
pending decimal point, or fractional part) or an identifier; partial lexemes
are held in reverse. -/
inductive LexMode where
  | ready
  | inStr (acc : List Char)
  | inInt (ds : List Char)
  | dotPending (ds : List Char)
  | inFrac (ds fs : List Char)
  | inIdent (cs : List Char)
deriving Repr, DecidableEq

/-- Modelled from the spec: lexing one character from between tokens —
whitespace is skipped, delimiters become tokens at once, a double quote opens
a string literal, a digit a numeric literal, a letter or underscore an
identifier, and any other character is a LexError. Emitted tokens are pushed
onto the accumulator in reverse. -/
def lexStart (toks : List Token) (c : Char) :
    Except FundingError (List Token × LexMode) :=
  if isWs c then .ok (toks, .ready)
  else if c = '{' then .ok (.lbrace :: toks, .ready)
  else if c = '}' then .ok (.rbrace :: toks, .ready)
  else if c = '[' then .ok (.lbrack :: toks, .ready)
  else if c = ']' then .ok (.rbrack :: toks, .ready)
  else if c = ',' then .ok (.comma :: toks, .ready)
  else if c = '"' then .ok (toks, .inStr [])
  else if c.isDigit then .ok (toks, .inInt [c])
  else if c.isAlpha || c = '_' then .ok (toks, .inIdent [c])
  else .error (.lexError "unrecognized character")

/-- Modelled from the spec: one step of the lexer on one character. A
character that ends the current literal or identifier emits its token and is
then handled as a fresh start character. The sample document uses no escape
sequences inside strings and none are interpreted. -/
def lexStep (toks : List Token) : LexMode → Char → Except FundingError (List Token × LexMode)
  | .ready, c => lexStart toks c
  | .inStr acc, c =>
    if c = '"' then .ok (.str (String.mk acc.reverse) :: toks, .ready)
    else .ok (toks, .inStr (c :: acc))
  | .inInt ds, c =>
    if c.isDigit then .ok (toks, .inInt (c :: ds))
    else if c = '.' then .ok (toks, .dotPending ds)
    else lexStart (.num (digitsToNat ds.reverse : ℚ) :: toks) c
  | .dotPending ds, c =>
    if c.isDigit then .ok (toks, .inFrac ds [c])
    else .error (.lexError "malformed numeric literal")
  | .inFrac ds fs, c =>
    if c.isDigit then .ok (toks, .inFrac ds (c :: fs))
    else lexStart (.num (decimalToRat ds.reverse fs.reverse) :: toks) c
  | .inIdent is, c =>
    if isIdentCh c then .ok (toks, .inIdent (c :: is))
    else lexStart (.ident (String.mk is.reverse) :: toks) c

/-- Modelled from the spec: end of input — an open string literal or a
trailing decimal point is a LexError, a pending numeric literal or identifier
is emitted. -/
def lexFlush (toks : List Token) : LexMode → Except FundingError (List Token)
  | .ready => .ok toks
  | .inStr _ => .error (.lexError "unterminated string literal")
  | .inInt ds => .ok (.num (digitsToNat ds.reverse : ℚ) :: toks)
  | .dotPending _ => .error (.lexError "malformed numeric literal")
  | .inFrac ds fs => .ok (.num (decimalToRat ds.reverse fs.reverse) :: toks)
  | .inIdent is => .ok (.ident (String.mk is.reverse) :: toks)

/-- Modelled from the spec: the lexer of section 4.1, run as a
character-at-a-time automaton over the document; the token accumulator is
kept reversed and restored to document order at the end. -/
def lexDFA (toks : List Token) (m : LexMode) : List Char → Except FundingError (List Token)
  | [] => (lexFlush toks m).map List.reverse
  | c :: cs =>
    match lexStep toks m c with
    | .error e => .error e
    | .ok (toks2, m2) => lexDFA toks2 m2 cs

/-- Modelled from the spec: lex an entire document. -/
def lex (text : String) : Except FundingError (List Token) :=
  lexDFA [] .ready text.data

/-- Modelled from the spec: string-to-enum coercion for currency codes. -/
def currencyOfString : String → Option Currency
  | "EUR" => some .EUR
  | "USD" => some .USD
  | "GBP" => some .GBP
  | _ => none

/-- Modelled from the spec: the platform keywords opening a source block. -/
def platformOfString : String → Option Platform
  | "github_sponsors" => some .github_sponsors
  | "patreon" => some .patreon
  | "ko_fi" => some .ko_fi
  | "custom" => some .custom
  | _ => none

/-- Modelled from the spec: string-to-enum coercion for source types. -/
def sourceTypeOfString : String → Option SourceType
  | "one_time" => some .one_time
  | "recurring" => some .recurring
  | "both" => some .both
  | _ => none

/-- Consume one expected token or fail with a ParseError. -/
def expectTok (t : Token) : List Token → Except FundingError (List Token)
  | u :: ts => if u = t then .ok ts else .error (.parseError "unexpected token")
  | [] => .error (.parseError "unexpected end of input")

/-- Consume one expected keyword or fail with a ParseError. -/
def expectIdent (kw : String) : List Token → Except FundingError (List Token)
  | .ident s :: ts =>
    if s = kw then .ok ts else .error (.parseError ("expected keyword " ++ kw))
  | _ => .error (.parseError ("expected keyword " ++ kw))

/-- Consume one string literal. -/
def parseStr : List Token → Except FundingError (String × List Token)
  | .str s :: ts => .ok (s, ts)
  | _ => .error (.parseError "expected string literal")

/-- Consume one numeric literal. -/
def parseNum : List Token → Except FundingError (ℚ × List Token)
  | .num q :: ts => .ok (q, ts)
  | _ => .error (.parseError "expected numeric literal")

/-- Consume a boolean literal (the identifiers true/false). -/
def parseBool : List Token → Except FundingError (Bool × List Token)
  | .ident "true" :: ts => .ok (true, ts)
  | .ident "false" :: ts => .ok (false, ts)
  | _ => .error (.parseError "expected boolean literal")

/-- Modelled from the spec: "Numeric amount fields may appear with a trailing
currency code token (e.g., 5.0 EUR); if omitted, the Configuration's
preferred_currency is assumed". An identifier following the number is
consumed as the amount's currency exactly when it is a recognized currency
code; the default is resolved later by the model builder. -/
def parseAmount : List Token → Except FundingError ((ℚ × Option Currency) × List Token)
  | .num q :: .ident s :: ts =>
    match currencyOfString s with
    | some cur => .ok ((q, some cur), ts)
    | none => .ok ((q, none), .ident s :: ts)
  | .num q :: ts => .ok ((q, none), ts)
  | _ => .error (.parseError "expected amount")

/-- Accumulator for the fields of one beneficiary block; duplicates of a
single-valued field are a ParseError per section 4.2. -/
structure BenAcc where
  email? : Option String := none
  github? : Option String := none
  website? : Option String := none
  desc? : Option String := none
deriving Repr, DecidableEq

/-- Modelled from the spec: the model builder for a beneficiary; the name is
required and non-empty. -/
def buildBeneficiary (name : String) (a : BenAcc) : Except FundingError Beneficiary :=
  if name = "" then .error (.modelBuildError "beneficiary name must be non-empty")
  else .ok { name := name, email := a.email?, github_username := a.github?,
             website := a.website?, description := a.desc? }

/-- Modelled from the spec grammar: beneficiary body
(email|github|website|description)*, fields in any order, duplicates a
ParseError, unknown keys a ParseError. -/
def parseBenFields : ℕ → BenAcc → List Token → Except FundingError (BenAcc × List Token)
  | 0, _, _ => .error (.parseError "parser fuel exhausted")
  | _ + 1, acc, .rbrace :: ts => .ok (acc, ts)
  | fuel + 1, acc, .ident "email" :: ts => do
    let (s, ts) ← parseStr ts
    if acc.email?.isSome then .error (.parseError "duplicate field email")
    else parseBenFields fuel { acc with email? := some s } ts
  | fuel + 1, acc, .ident "github" :: ts => do
    let (s, ts) ← parseStr ts
    if acc.github?.isSome then .error (.parseError "duplicate field github")
    else parseBenFields fuel { acc with github? := some s } ts
  | fuel + 1, acc, .ident "website" :: ts => do
    let (s, ts) ← parseStr ts
    if acc.website?.isSome then .error (.parseError "duplicate field website")
    else parseBenFields fuel { acc with website? := some s } ts
  | fuel + 1, acc, .ident "description" :: ts => do
    let (s, ts) ← parseStr ts
    if acc.desc?.isSome then .error (.parseError "duplicate field description")
    else parseBenFields fuel { acc with desc? := some s } ts
  | _ + 1, _, _ => .error (.parseError "unknown key in beneficiary block")

/-- Modelled from the spec grammar: beneficiaries_block body, a sequence of
beneficiary productions up to the closing brace. -/
def parseBeneficiaries : ℕ → List Beneficiary → List Token →
    Except FundingError (List Beneficiary × List Token)
  | 0, _, _ => .error (.parseError "parser fuel exhausted")
  | _ + 1, acc, .rbrace :: ts => .ok (acc.reverse, ts)
  | fuel + 1, acc, .ident "beneficiary" :: ts => do
    let (name, ts) ← parseStr ts
    let ts ← expectTok .lbrace ts
    let (ba, ts) ← parseBenFields fuel {} ts
    let b ← buildBeneficiary name ba
    parseBeneficiaries fuel (b :: acc) ts
  | _ + 1, _, _ => .error (.parseError "unknown key in beneficiaries block")

/-- Accumulator for the fields of one source block. -/
structure SourceAcc where
  type? : Option SourceType := none
  active? : Option Bool := none
  url? : Option String := none
  config? : Option (List (String × String)) := none
deriving Repr, DecidableEq

/-- Modelled from the spec: config block body, a sequence of string-key
string-value pairs kept in declaration order. -/
def parseConfigEntries : ℕ → List (String × String) → List Token →
    Except FundingError (List (String × String) × List Token)
  | 0, _, _ => .error (.parseError "parser fuel exhausted")
  | _ + 1, acc, .rbrace :: ts => .ok (acc.reverse, ts)
  | fuel + 1, acc, .str k :: .str v :: ts => parseConfigEntries fuel ((k, v) :: acc) ts
  | _ + 1, _, _ => .error (.parseError "malformed config entry")

/-- Modelled from the spec grammar: source body (type|active|url|config_block)*.
The type identifier is coerced to its enum by the builder rules, an
unrecognized value being a ModelBuildError. -/
def parseSourceFields : ℕ → SourceAcc → List Token →
    Except FundingError (SourceAcc × List Token)
  | 0, _, _ => .error (.parseError "parser fuel exhausted")
  | _ + 1, acc, .rbrace :: ts => .ok (acc, ts)
  | fuel + 1, acc, .ident "type" :: .ident s :: ts =>
    (match sourceTypeOfString s with
     | none => .error (.modelBuildError ("unrecognized source type " ++ s))
     | some t =>
       if acc.type?.isSome then .error (.parseError "duplicate field type")
       else parseSourceFields fuel { acc with type? := some t } ts)
  | fuel + 1, acc, .ident "active" :: ts => do
    let (b, ts) ← parseBool ts
    if acc.active?.isSome then .error (.parseError "duplicate field active")
    else parseSourceFields fuel { acc with active? := some b } ts
  | fuel + 1, acc, .ident "url" :: ts => do
    let (s, ts) ← parseStr ts
    if acc.url?.isSome then .error (.parseError "duplicate field url")
    else parseSourceFields fuel { acc with url? := some s } ts
  | fuel + 1, acc, .ident "config" :: .lbrace :: ts => do
    let (entries, ts) ← parseConfigEntries fuel [] ts
    if acc.config?.isSome then .error (.parseError "duplicate config block")
    else parseSourceFields fuel { acc with config? := some entries } ts
  | _ + 1, _, _ => .error (.parseError "unknown key in source block")

/-- Modelled from the spec: the model builder for a funding source; the type
is required, is_active defaults to true, the config mapping defaults to
empty. The required-URL rule for custom platforms is deferred to the
validator (the implementer's choice the spec leaves open). -/
def buildSource (plat : Platform) (username : String) (a : SourceAcc) :
    Except FundingError FundingSource :=
  match a.type? with
  | none => .error (.modelBuildError "missing required field type in source")
  | some t => .ok { platform := plat, username := username, funding_type := t,
                    is_active := a.active?.getD true, custom_url := a.url?,
                    config := a.config?.getD [] }

/-- Modelled from the spec grammar: sources_block body, each source opened by
a platform keyword. -/
def parseSources : ℕ → List FundingSource → List Token →
    Except FundingError (List FundingSource × List Token)
  | 0, _, _ => .error (.parseError "parser fuel exhausted")
  | _ + 1, acc, .rbrace :: ts => .ok (acc.reverse, ts)
  | fuel + 1, acc, .ident p :: ts =>
    (match platformOfString p with
     | none => .error (.parseError ("unknown platform " ++ p))
     | some plat => do
       let (username, ts) ← parseStr ts
       let ts ← expectTok .lbrace ts
       let (sa, ts) ← parseSourceFields fuel {} ts
       let s ← buildSource plat username sa
       parseSources fuel (s :: acc) ts)
  | _ + 1, _, _ => .error (.parseError "unknown key in sources block")

/-- Accumulator for the fields of one tier block; amounts stay raw until the
preferred currency is known. -/
structure TierAcc where
  amount? : Option (ℚ × Option Currency) := none
  desc? : Option String := none
  maxSp? : Option ℚ := none
  benefits? : Option (List String) := none
deriving Repr, DecidableEq

/-- A tier as parsed, before currency resolution. -/
structure RawTier where
  name : String
  acc : TierAcc
deriving Repr, DecidableEq

/-- Modelled from the spec grammar: benefits_list, string literals separated
by commas inside square brackets. -/
def parseBenefitItems : ℕ → List String → List Token →
    Except FundingError (List String × List Token)
  | 0, _, _ => .error (.parseError "parser fuel exhausted")
  | _ + 1, acc, .rbrack :: ts => .ok (acc.reverse, ts)
  | fuel + 1, acc, .str s :: .comma :: ts => parseBenefitItems fuel (s :: acc) ts
  | _ + 1, acc, .str s :: .rbrack :: ts => .ok ((s :: acc).reverse, ts)
  | _ + 1, _, _ => .error (.parseError "malformed benefits list")

/-- Modelled from the spec grammar: tier body
(amount_with_currency|description|max_sponsors|benefits_list)*. -/
def parseTierFields : ℕ → TierAcc → List Token →
    Except FundingError (TierAcc × List Token)
  | 0, _, _ => .error (.parseError "parser fuel exhausted")
  | _ + 1, acc, .rbrace :: ts => .ok (acc, ts)
  | fuel + 1, acc, .ident "amount" :: ts => do
    let (a, ts) ← parseAmount ts
    if acc.amount?.isSome then .error (.parseError "duplicate field amount")
    else parseTierFields fuel { acc with amount? := some a } ts
  | fuel + 1, acc, .ident "description" :: ts => do
    let (s, ts) ← parseStr ts
    if acc.desc?.isSome then .error (.parseError "duplicate field description")
    else parseTierFields fuel { acc with desc? := some s } ts
  | fuel + 1, acc, .ident "max_sponsors" :: ts => do
    let (q, ts) ← parseNum ts
    if acc.maxSp?.isSome then .error (.parseError "duplicate field max_sponsors")
    else parseTierFields fuel { acc with maxSp? := some q } ts
  | fuel + 1, acc, .ident "benefits" :: .lbrack :: ts => do
    let (bs, ts) ← parseBenefitItems fuel [] ts
    if acc.benefits?.isSome then .error (.parseError "duplicate benefits list")
    else parseTierFields fuel { acc with benefits? := some bs } ts
  | _ + 1, _, _ => .error (.parseError "unknown key in tier block")

/-- Modelled from the spec grammar: tiers_block body. -/
def parseTiers : ℕ → List RawTier → List Token →
    Except FundingError (List RawTier × List Token)
  | 0, _, _ => .error (.parseError "parser fuel exhausted")
  | _ + 1, acc, .rbrace :: ts => .ok (acc.reverse, ts)
  | fuel + 1, acc, .ident "tier" :: ts => do
    let (name, ts) ← parseStr ts
    let ts ← expectTok .lbrace ts
    let (ta, ts) ← parseTierFields fuel {} ts
    parseTiers fuel ({ name := name, acc := ta } :: acc) ts
  | _ + 1, _, _ => .error (.parseError "unknown key in tiers block")

/-- Accumulator for the fields of one goal block. -/
structure GoalAcc where
  target? : Option (ℚ × Option Currency) := none
  current? : Option (ℚ × Option Currency) := none
  deadline? : Option String := none
  desc? : Option String := none
deriving Repr, DecidableEq

/-- A goal as parsed, before currency resolution. -/
structure RawGoal where
  name : String
  acc : GoalAcc
deriving Repr, DecidableEq

/-- Modelled from the spec grammar: goal body
(target_with_currency|current_with_currency|deadline|description)*. -/
def parseGoalFields : ℕ → GoalAcc → List Token →
    Except FundingError (GoalAcc × List Token)
  | 0, _, _ => .error (.parseError "parser fuel exhausted")
  | _ + 1, acc, .rbrace :: ts => .ok (acc, ts)
  | fuel + 1, acc, .ident "target" :: ts => do
    let (a, ts) ← parseAmount ts
    if acc.target?.isSome then .error (.parseError "duplicate field target")
    else parseGoalFields fuel { acc with target? := some a } ts
  | fuel + 1, acc, .ident "current" :: ts => do
    let (a, ts) ← parseAmount ts
    if acc.current?.isSome then .error (.parseError "duplicate field current")
    else parseGoalFields fuel { acc with current? := some a } ts
  | fuel + 1, acc, .ident "deadline" :: ts => do
    let (s, ts) ← parseStr ts
    if acc.deadline?.isSome then .error (.parseError "duplicate field deadline")
    else parseGoalFields fuel { acc with deadline? := some s } ts
  | fuel + 1, acc, .ident "description" :: ts => do
    let (s, ts) ← parseStr ts
    if acc.desc?.isSome then .error (.parseError "duplicate field description")
    else parseGoalFields fuel { acc with desc? := some s } ts
  | _ + 1, _, _ => .error (.parseError "unknown key in goal block")

/-- Modelled from the spec grammar: goals_block body. -/
def parseGoals : ℕ → List RawGoal → List Token →
    Except FundingError (List RawGoal × List Token)
  | 0, _, _ => .error (.parseError "parser fuel exhausted")
  | _ + 1, acc, .rbrace :: ts => .ok (acc.reverse, ts)
  | fuel + 1, acc, .ident "goal" :: ts => do
    let (name, ts) ← parseStr ts
    let ts ← expectTok .lbrace ts
    let (ga, ts) ← parseGoalFields fuel {} ts
    parseGoals fuel ({ name := name, acc := ga } :: acc) ts
  | _ + 1, _, _ => .error (.parseError "unknown key in goals block")

/-- Accumulator for the fields and blocks of the funding configuration
body. -/
structure ConfigAcc where
  desc? : Option String := none
  cur? : Option Currency := none
  min? : Option (ℚ × Option Currency) := none
  max? : Option (ℚ × Option Currency) := none
  bens? : Option (List Beneficiary) := none
  srcs? : Option (List FundingSource) := none
  tiers? : Option (List RawTier) := none
  goals? : Option (List RawGoal) := none
deriving Repr, DecidableEq

/-- Modelled from the spec grammar: config_body := (description | currency |
min_amount | max_amount | beneficiaries_block | sources_block | tiers_block |
goals_block)*, fields in any order, duplicates a ParseError. -/
def parseConfigBody : ℕ → ConfigAcc → List Token →
    Except FundingError (ConfigAcc × List Token)
  | 0, _, _ => .error (.parseError "parser fuel exhausted")
  | _ + 1, acc, .rbrace :: ts => .ok (acc, ts)
  | fuel + 1, acc, .ident "description" :: ts => do
    let (s, ts) ← parseStr ts
    if acc.desc?.isSome then .error (.parseError "duplicate field description")
    else parseConfigBody fuel { acc with desc? := some s } ts
  | fuel + 1, acc, .ident "currency" :: .ident s :: ts =>
    (match currencyOfString s with
     | none => .error (.modelBuildError ("unrecognized currency " ++ s))
     | some cur =>
       if acc.cur?.isSome then .error (.parseError "duplicate field currency")
       else parseConfigBody fuel { acc with cur? := some cur } ts)
  | fuel + 1, acc, .ident "min_amount" :: ts => do
    let (a, ts) ← parseAmount ts
    if acc.min?.isSome then .error (.parseError "duplicate field min_amount")
    else parseConfigBody fuel { acc with min? := some a } ts
  | fuel + 1, acc, .ident "max_amount" :: ts => do
    let (a, ts) ← parseAmount ts
    if acc.max?.isSome then .error (.parseError "duplicate field max_amount")
    else parseConfigBody fuel { acc with max? := some a } ts
  | fuel + 1, acc, .ident "beneficiaries" :: .lbrace :: ts => do
    let (bs, ts) ← parseBeneficiaries fuel [] ts
    if acc.bens?.isSome then .error (.parseError "duplicate beneficiaries block")
    else parseConfigBody fuel { acc with bens? := some bs } ts
  | fuel + 1, acc, .ident "sources" :: .lbrace :: ts => do
    let (ss, ts) ← parseSources fuel [] ts
    if acc.srcs?.isSome then .error (.parseError "duplicate sources block")
    else parseConfigBody fuel { acc with srcs? := some ss } ts
  | fuel + 1, acc, .ident "tiers" :: .lbrace :: ts => do
    let (rs, ts) ← parseTiers fuel [] ts
    if acc.tiers?.isSome then .error (.parseError "duplicate tiers block")
    else parseConfigBody fuel { acc with tiers? := some rs } ts
  | fuel + 1, acc, .ident "goals" :: .lbrace :: ts => do
    let (gs, ts) ← parseGoals fuel [] ts
    if acc.goals?.isSome then .error (.parseError "duplicate goals block")
    else parseConfigBody fuel { acc with goals? := some gs } ts
  | _ + 1, _, _ => .error (.parseError "unknown key in funding block")

/-- Modelled from the spec: an amount with its currency defaulted to the
configuration's preferred currency when none was written. -/
def resolveAmount (pref : Currency) : ℚ × Option Currency → CurrencyAmount
  | (q, some c) => ⟨q, c⟩
  | (q, none) => ⟨q, pref⟩

/-- Modelled from the spec: the model builder for a tier; the amount is
required, max_sponsors must coerce to a positive integer, benefits default to
the empty list. -/
def buildTier (pref : Currency) (rt : RawTier) : Except FundingError FundingTier := do
  match rt.acc.amount? with
  | none => .error (.modelBuildError ("missing required field amount in tier " ++ rt.name))
  | some a =>
    match rt.acc.maxSp? with
    | none =>
      .ok { name := rt.name, amount := resolveAmount pref a,
            description := rt.acc.desc?, max_sponsors := none,
            benefits := rt.acc.benefits?.getD [] }
    | some q =>
      if q.den = 1 ∧ 0 < q.num then
        .ok { name := rt.name, amount := resolveAmount pref a,
              description := rt.acc.desc?, max_sponsors := some q.num.toNat,
              benefits := rt.acc.benefits?.getD [] }
      else .error (.modelBuildError ("max_sponsors must be a positive integer in tier " ++ rt.name))

/-- Modelled from the spec: the model builder for a goal; the target is
required and the current amount defaults to 0 in the preferred currency. -/
def buildGoal (pref : Currency) (rg : RawGoal) : Except FundingError FundingGoal :=
  match rg.acc.target? with
  | none => .error (.modelBuildError ("missing required field target in goal " ++ rg.name))
  | some t =>
    .ok { name := rg.name, target_amount := resolveAmount pref t,
          current_amount := (rg.acc.current?.map (resolveAmount pref)).getD ⟨0, pref⟩,
          deadline := rg.acc.deadline?, description := rg.acc.desc? }

/-- Modelled from the spec: the model builder for the configuration. The
preferred currency is required; the description defaults to the empty
string; min/max amounts and nested tier and goal amounts resolve their
default currency to the preferred one. -/
def buildConfig (name : String) (a : ConfigAcc) : Except FundingError Configuration :=
  match a.cur? with
  | none => .error (.modelBuildError "missing required field currency")
  | some pref => do
    let tiers ← (a.tiers?.getD []).mapM (buildTier pref)
    let goals ← (a.goals?.getD []).mapM (buildGoal pref)
    .ok { project_name := name, description := a.desc?.getD "",
          preferred_currency := pref,
          min_amount := a.min?.map (resolveAmount pref),
          max_amount := a.max?.map (resolveAmount pref),
          beneficiaries := a.bens?.getD [],
          funding_sources := a.srcs?.getD [],
          tiers := tiers, goals := goals }

/-- Modelled from the spec: completing a parse once the funding block body
has been consumed — any remaining token is a ParseError, otherwise the model
builder runs. -/
def finishParse (name : String) :
    Except FundingError (ConfigAcc × List Token) → Except FundingError Configuration
  | .error e => .error e
  | .ok (acc, []) => buildConfig name acc
  | .ok (_, _ :: _) => .error (.parseError "unexpected tokens after funding block")

/-- Modelled from the spec grammar: config := "funding" STRING "\x7b"
config_body "\x7d", with no tokens allowed after the closing brace. The body
loop's fuel is one more than the number of remaining tokens, which suffices
because every loop iteration of every block consumes at least one token. -/
def parseTokens : List Token → Except FundingError Configuration
  | .ident "funding" :: .str name :: .lbrace :: ts =>
    finishParse name (parseConfigBody (ts.length + 1) {} ts)
  | _ => .error (.parseError "expected funding block")

/-- Modelled from the spec: hand a lexing result to the token parser,
propagating a LexError unchanged. -/
def parseLexed : Except FundingError (List Token) → Except FundingError Configuration
  | .error e => .error e
  | .ok ts => parseTokens ts

/-- Modelled from the spec: the single entry point
parse(text) -> Configuration, failing with LexError, ParseError or
ModelBuildError on malformed input. -/
def parse (text : String) : Except FundingError Configuration :=
  parseLexed (lex text)

/-- The sample DSL document returned by create_sample_dsl in
demo_textx_vs_antlr.py, embedded chunk by chunk (braces written as hex
escapes); the chunks concatenate to the exact document text. -/

def cchars1 : List Char :=
  String.data "\n    funding \"Parser Comparison Demo\" \x7b\n"

def cchars2 : List Char :=
  String.data "        description \"Demonstrating both TextX and ANTLR parser implementations\"\n        currency EUR\n        min_amount 2.0\n        max_amount 500.0\n        \n"

def cchars3 : List Char :=
  String.data "        beneficiaries \x7b\n"

def cchars4 : List Char :=
  String.data "            beneficiary \"Alice Developer\" \x7b\n                email \"alice@demo.com\"\n                github \"alice-dev\"\n                website \"https://alice.dev\"\n                description \"Lead developer and project maintainer\"\n            \x7d\n            \n"

def cchars5 : List Char :=
  String.data "            beneficiary \"Bob Contributor\" \x7b\n                github \"bob-contrib\"\n                description \"Core contributor and documentation lead\"\n            \x7d\n        \x7d\n"

def cchars6 : List Char :=
  String.data "        \n        sources \x7b\n"

def cchars7 : List Char :=
  String.data "            github_sponsors \"alice-dev\" \x7b\n                type both\n                active true\n            \x7d\n            \n"

def cchars8 : List Char :=
  String.data "            patreon \"demo-project\" \x7b\n                type recurring\n                active true\n                config \x7b\n                    \"tier_sync\" \"enabled\"\n                    \"webhook_url\" \"https://api.demo.com/webhook\"\n                    \"auto_thank\" \"true\"\n                \x7d\n            \x7d\n            \n"

def cchars9 : List Char :=
  String.data "            ko_fi \"alice-dev\" \x7b\n                type one_time\n                active true\n            \x7d\n            \n"

def cchars10 : List Char :=
  String.data "            custom \"PayPal Donations\" \x7b\n                url \"https://paypal.me/alice-dev\"\n                type both\n                active true\n            \x7d\n        \x7d\n"

def cchars11 : List Char :=
  String.data "        \n        tiers \x7b\n"

def cchars12 : List Char :=
  String.data "            tier \"Coffee Supporter\" \x7b\n                amount 5.0 EUR\n                description \"Support with a monthly coffee\"\n                benefits [\n                    \"Thank you message\",\n                    \"Project updates\",\n                    \"Community access\"\n                ]\n            \x7d\n            \n"

def cchars13 : List Char :=
  String.data "            tier \"Regular Backer\" \x7b\n                amount 25.0 EUR\n                description \"Regular monthly support\"\n                max_sponsors 50\n                benefits [\n                    \"All Coffee tier benefits\",\n                    \"Early access to features\",\n                    \"Direct communication channel\",\n                    \"Priority issue responses\"\n                ]\n            \x7d\n            \n"

def cchars14 : List Char :=
  String.data "            tier \"Premium Sponsor\" \x7b\n                amount 100.0 EUR\n                description \"Premium sponsorship with major benefits\"\n                max_sponsors 10\n                benefits [\n                    \"All Backer tier benefits\",\n                    \"Logo placement in README\",\n                    \"Quarterly video calls\",\n                    \"Feature request priority\",\n                    \"Custom integration support\"\n                ]\n            \x7d\n        \x7d\n"

def cchars15 : List Char :=
  String.data "        \n        goals \x7b\n"

def cchars16 : List Char :=
  String.data "            goal \"Infrastructure Costs\" \x7b\n                target 200.0 EUR\n                current 125.0 EUR\n                description \"Monthly server and infrastructure expenses\"\n            \x7d\n            \n"

def cchars17 : List Char :=
  String.data "            goal \"Documentation Rewrite\" \x7b\n                target 1000.0 EUR\n                current 300.0 EUR\n                deadline \"2024-09-01\"\n                description \"Complete documentation overhaul with examples\"\n            \x7d\n            \n"

def cchars18 : List Char :=
  String.data "            goal \"Mobile App Development\" \x7b\n                target 5000.0 EUR\n                current 0.0 EUR\n                deadline \"2025-03-01\"\n                description \"Develop companion mobile application\"\n            \x7d\n        \x7d\n"

def cchars19 : List Char :=
  String.data "    \x7d\n    "

/-- The characters of the sample document: the chunks in order. -/

def sampleChars : List Char :=
  cchars1 ++ (cchars2 ++ (cchars3 ++ (cchars4 ++ (cchars5 ++ (cchars6 ++ (cchars7 ++ (cchars8 ++ (cchars9 ++ (cchars10 ++ (cchars11 ++ (cchars12 ++ (cchars13 ++ (cchars14 ++ (cchars15 ++ (cchars16 ++ (cchars17 ++ (cchars18 ++ (cchars19 ++ []))))))))))))))))))

/-- The sample DSL document as one string. -/

def createSampleDsl : String :=
  String.mk sampleChars

/-- The tokens of chunk 1 of the sample document. -/

def ctok1 : List Token :=
  [.ident "funding",
   .str "Parser Comparison Demo",
   .lbrace]

/-- The tokens of chunk 2 of the sample document. -/

def ctok2 : List Token :=
  [.ident "description",
   .str "Demonstrating both TextX and ANTLR parser implementations",
   .ident "currency",
   .ident "EUR",
   .ident "min_amount",
   .num (decimalToRat ['2'] ['0']),
   .ident "max_amount",
   .num (decimalToRat ['5', '0', '0'] ['0'])]

/-- The tokens of chunk 3 of the sample document. -/

def ctok3 : List Token :=
  [.ident "beneficiaries",
   .lbrace]

/-- The tokens of chunk 4 of the sample document. -/

def ctok4 : List Token :=
  [.ident "beneficiary",
   .str "Alice Developer",
   .lbrace,
   .ident "email",
   .str "alice@demo.com",
   .ident "github",
   .str "alice-dev",
   .ident "website",
   .str "https://alice.dev",
   .ident "description",
   .str "Lead developer and project maintainer",
   .rbrace]

/-- The tokens of chunk 5 of the sample document. -/

def ctok5 : List Token :=
  [.ident "beneficiary",
   .str "Bob Contributor",
   .lbrace,
   .ident "github",
   .str "bob-contrib",
   .ident "description",
   .str "Core contributor and documentation lead",
   .rbrace,
   .rbrace]

/-- The tokens of chunk 6 of the sample document. -/

def ctok6 : List Token :=
  [.ident "sources",
   .lbrace]

/-- The tokens of chunk 7 of the sample document. -/

def ctok7 : List Token :=
  [.ident "github_sponsors",
   .str "alice-dev",
   .lbrace,
   .ident "type",
   .ident "both",
   .ident "active",
   .ident "true",
   .rbrace]

/-- The tokens of chunk 8 of the sample document. -/

def ctok8 : List Token :=
  [.ident "patreon",
   .str "demo-project",
   .lbrace,
   .ident "type",
   .ident "recurring",
   .ident "active",
   .ident "true",
   .ident "config",
   .lbrace,
   .str "tier_sync",
   .str "enabled",
   .str "webhook_url",
   .str "https://api.demo.com/webhook",
   .str "auto_thank",
   .str "true",
   .rbrace,
   .rbrace]

/-- The tokens of chunk 9 of the sample document. -/

def ctok9 : List Token :=
  [.ident "ko_fi",
   .str "alice-dev",
   .lbrace,
   .ident "type",
   .ident "one_time",
   .ident "active",
   .ident "true",
   .rbrace]

/-- The tokens of chunk 10 of the sample document. -/

def ctok10 : List Token :=
  [.ident "custom",
   .str "PayPal Donations",
   .lbrace,
   .ident "url",
   .str "https://paypal.me/alice-dev",
   .ident "type",
   .ident "both",
   .ident "active",
   .ident "true",
   .rbrace,
   .rbrace]

/-- The tokens of chunk 11 of the sample document. -/

def ctok11 : List Token :=
  [.ident "tiers",
   .lbrace]

/-- The tokens of chunk 12 of the sample document. -/

def ctok12 : List Token :=
  [.ident "tier",
   .str "Coffee Supporter",
   .lbrace,
   .ident "amount",
   .num (decimalToRat ['5'] ['0']),
   .ident "EUR",
   .ident "description",
   .str "Support with a monthly coffee",
   .ident "benefits",
   .lbrack,
   .str "Thank you message",
   .comma,
   .str "Project updates",
   .comma,
   .str "Community access",
   .rbrack,
   .rbrace]

/-- The tokens of chunk 13 of the sample document. -/

def ctok13 : List Token :=
  [.ident "tier",
   .str "Regular Backer",
   .lbrace,
   .ident "amount",
   .num (decimalToRat ['2', '5'] ['0']),
   .ident "EUR",
   .ident "description",
   .str "Regular monthly support",
   .ident "max_sponsors",
   .num ((50 : ℕ) : ℚ),
   .ident "benefits",
   .lbrack,
   .str "All Coffee tier benefits",
   .comma,
   .str "Early access to features",
   .comma,
   .str "Direct communication channel",
   .comma,
   .str "Priority issue responses",
   .rbrack,
   .rbrace]

/-- The tokens of chunk 14 of the sample document. -/

def ctok14 : List Token :=
  [.ident "tier",
   .str "Premium Sponsor",
   .lbrace,
   .ident "amount",
   .num (decimalToRat ['1', '0', '0'] ['0']),
   .ident "EUR",
   .ident "description",
   .str "Premium sponsorship with major benefits",
   .ident "max_sponsors",
   .num ((10 : ℕ) : ℚ),
   .ident "benefits",
   .lbrack,
   .str "All Backer tier benefits",
   .comma,
   .str "Logo placement in README",
   .comma,
   .str "Quarterly video calls",
   .comma,
   .str "Feature request priority",
   .comma,
   .str "Custom integration support",
   .rbrack,
   .rbrace,
   .rbrace]

/-- The tokens of chunk 15 of the sample document. -/

def ctok15 : List Token :=
  [.ident "goals",
   .lbrace]

/-- The tokens of chunk 16 of the sample document. -/

def ctok16 : List Token :=
  [.ident "goal",
   .str "Infrastructure Costs",
   .lbrace,
   .ident "target",
   .num (decimalToRat ['2', '0', '0'] ['0']),
   .ident "EUR",
   .ident "current",
   .num (decimalToRat ['1', '2', '5'] ['0']),
   .ident "EUR",
   .ident "description",
   .str "Monthly server and infrastructure expenses",
   .rbrace]

/-- The tokens of chunk 17 of the sample document. -/

def ctok17 : List Token :=
  [.ident "goal",
   .str "Documentation Rewrite",
   .lbrace,
   .ident "target",
   .num (decimalToRat ['1', '0', '0', '0'] ['0']),
   .ident "EUR",
   .ident "current",
   .num (decimalToRat ['3', '0', '0'] ['0']),
   .ident "EUR",
   .ident "deadline",
   .str "2024-09-01",
   .ident "description",
   .str "Complete documentation overhaul with examples",
   .rbrace]

/-- The tokens of chunk 18 of the sample document. -/

def ctok18 : List Token :=
  [.ident "goal",
   .str "Mobile App Development",
   .lbrace,
   .ident "target",
   .num (decimalToRat ['5', '0', '0', '0'] ['0']),
   .ident "EUR",
   .ident "current",
   .num (decimalToRat ['0'] ['0']),
   .ident "EUR",
   .ident "deadline",
   .str "2025-03-01",
   .ident "description",
   .str "Develop companion mobile application",
   .rbrace,
   .rbrace]

/-- The tokens of chunk 19 of the sample document. -/

def ctok19 : List Token :=
  [.rbrace]

/-- The full token stream of the sample document. -/

def sampleTokens : List Token :=
  ctok1 ++ (ctok2 ++ (ctok3 ++ (ctok4 ++ (ctok5 ++ (ctok6 ++ (ctok7 ++ (ctok8 ++ (ctok9 ++ (ctok10 ++ (ctok11 ++ (ctok12 ++ (ctok13 ++ (ctok14 ++ (ctok15 ++ (ctok16 ++ (ctok17 ++ (ctok18 ++ (ctok19 ++ []))))))))))))))))))

/-- The configuration the sample document denotes: two beneficiaries, four
funding sources, three tiers and three goals, all amounts in EUR. -/
def demoConfig : Configuration :=
  { project_name := "Parser Comparison Demo",
    description := "Demonstrating both TextX and ANTLR parser implementations",
    preferred_currency := .EUR,
    min_amount := some ⟨2, .EUR⟩,
    max_amount := some ⟨500, .EUR⟩,
    beneficiaries :=
      [{ name := "Alice Developer", email := some "alice@demo.com",
         github_username := some "alice-dev", website := some "https://alice.dev",
         description := some "Lead developer and project maintainer" },
       { name := "Bob Contributor", email := none,
         github_username := some "bob-contrib", website := none,
         description := some "Core contributor and documentation lead" }],
    funding_sources :=
      [{ platform := .github_sponsors, username := "alice-dev",
         funding_type := .both, is_active := true, custom_url := none, config := [] },
       { platform := .patreon, username := "demo-project",
         funding_type := .recurring, is_active := true, custom_url := none,
         config := [("tier_sync", "enabled"),
                    ("webhook_url", "https://api.demo.com/webhook"),
                    ("auto_thank", "true")] },
       { platform := .ko_fi, username := "alice-dev",
         funding_type := .one_time, is_active := true, custom_url := none, config := [] },
       { platform := .custom, username := "PayPal Donations",
         funding_type := .both, is_active := true,
         custom_url := some "https://paypal.me/alice-dev", config := [] }],
    tiers :=
      [{ name := "Coffee Supporter", amount := ⟨5, .EUR⟩,
         description := some "Support with a monthly coffee", max_sponsors := none,
         benefits := ["Thank you message", "Project updates", "Community access"] },
       { name := "Regular Backer", amount := ⟨25, .EUR⟩,
         description := some "Regular monthly support", max_sponsors := some 50,
         benefits := ["All Coffee tier benefits", "Early access to features",
                      "Direct communication channel", "Priority issue responses"] },
       { name := "Premium Sponsor", amount := ⟨100, .EUR⟩,
         description := some "Premium sponsorship with major benefits",
         max_sponsors := some 10,
         benefits := ["All Backer tier benefits", "Logo placement in README",
                      "Quarterly video calls", "Feature request priority",
                      "Custom integration support"] }],
    goals :=
      [{ name := "Infrastructure Costs", target_amount := ⟨200, .EUR⟩,
         current_amount := ⟨125, .EUR⟩, deadline := none,
         description := some "Monthly server and infrastructure expenses" },
       { name := "Documentation Rewrite", target_amount := ⟨1000, .EUR⟩,
         current_amount := ⟨300, .EUR⟩, deadline := some "2024-09-01",
         description := some "Complete documentation overhaul with examples" },
       { name := "Mobile App Development", target_amount := ⟨5000, .EUR⟩,
         current_amount := ⟨0, .EUR⟩, deadline := some "2025-03-01",
         description := some "Develop companion mobile application" }] }


/-- The accumulator state of the funding-block body loop after the four
header fields of the sample document. -/
def hdrAcc : ConfigAcc :=
  { desc? := some "Demonstrating both TextX and ANTLR parser implementations",
    cur? := some .EUR,
    min? := some (decimalToRat ['2'] ['0'], none),
    max? := some (decimalToRat ['5', '0', '0'] ['0'], none) }

/-- The body-loop state after the beneficiaries block of the sample
document. -/
def bensAcc : ConfigAcc :=
  { hdrAcc with bens? := some demoConfig.beneficiaries }

/-- The body-loop state after the sources block of the sample document. -/
def srcsAcc : ConfigAcc :=
  { bensAcc with srcs? := some demoConfig.funding_sources }

/-- The tiers of the sample document as parsed, before currency
resolution. -/
def rawTiers : List RawTier :=
  [{ name := "Coffee Supporter",
     acc := { amount? := some (decimalToRat ['5'] ['0'], some .EUR),
              desc? := some "Support with a monthly coffee",
              benefits? := some ["Thank you message", "Project updates", "Community access"] } },
   { name := "Regular Backer",
     acc := { amount? := some (decimalToRat ['2', '5'] ['0'], some .EUR),
              desc? := some "Regular monthly support",
              maxSp? := some ((50 : ℕ) : ℚ),
              benefits? := some ["All Coffee tier benefits", "Early access to features",
                                 "Direct communication channel", "Priority issue responses"] } },
   { name := "Premium Sponsor",
     acc := { amount? := some (decimalToRat ['1', '0', '0'] ['0'], some .EUR),
              desc? := some "Premium sponsorship with major benefits",
              maxSp? := some ((10 : ℕ) : ℚ),
              benefits? := some ["All Backer tier benefits", "Logo placement in README",
                                 "Quarterly video calls", "Feature request priority",
                                 "Custom integration support"] } }]

/-- The goals of the sample document as parsed, before currency
resolution. -/
def rawGoals : List RawGoal :=
  [{ name := "Infrastructure Costs",
     acc := { target? := some (decimalToRat ['2', '0', '0'] ['0'], some .EUR),
              current? := some (decimalToRat ['1', '2', '5'] ['0'], some .EUR),
              desc? := some "Monthly server and infrastructure expenses" } },
   { name := "Documentation Rewrite",
     acc := { target? := some (decimalToRat ['1', '0', '0', '0'] ['0'], some .EUR),
              current? := some (decimalToRat ['3', '0', '0'] ['0'], some .EUR),
              deadline? := some "2024-09-01",
              desc? := some "Complete documentation overhaul with examples" } },
   { name := "Mobile App Development",
     acc := { target? := some (decimalToRat ['5', '0', '0', '0'] ['0'], some .EUR),
              current? := some (decimalToRat ['0'] ['0'], some .EUR),
              deadline? := some "2025-03-01",
              desc? := some "Develop companion mobile application" } }]

/-- The body-loop state after the tiers block of the sample document. -/
def tiersAcc : ConfigAcc :=
  { srcsAcc with tiers? := some rawTiers }

/-- The body-loop state after the goals block of the sample document. -/
def goalsAcc : ConfigAcc :=
  { tiersAcc with goals? := some rawGoals }

/-- The configuration the parser yields for the sample document, with each
amount still in the form the lexer emitted it in. -/
def demoConfigE : Configuration :=
  { project_name := "Parser Comparison Demo",
    description := "Demonstrating both TextX and ANTLR parser implementations",
    preferred_currency := .EUR,
    min_amount := some ⟨decimalToRat ['2'] ['0'], .EUR⟩,
    max_amount := some ⟨decimalToRat ['5', '0', '0'] ['0'], .EUR⟩,
    beneficiaries := demoConfig.beneficiaries,
    funding_sources := demoConfig.funding_sources,
    tiers :=
      [{ name := "Coffee Supporter", amount := ⟨decimalToRat ['5'] ['0'], .EUR⟩,
         description := some "Support with a monthly coffee", max_sponsors := none,
         benefits := ["Thank you message", "Project updates", "Community access"] },
       { name := "Regular Backer", amount := ⟨decimalToRat ['2', '5'] ['0'], .EUR⟩,
         description := some "Regular monthly support", max_sponsors := some 50,
         benefits := ["All Coffee tier benefits", "Early access to features",
                      "Direct communication channel", "Priority issue responses"] },
       { name := "Premium Sponsor", amount := ⟨decimalToRat ['1', '0', '0'] ['0'], .EUR⟩,
         description := some "Premium sponsorship with major benefits",
         max_sponsors := some 10,
         benefits := ["All Backer tier benefits", "Logo placement in README",
                      "Quarterly video calls", "Feature request priority",
                      "Custom integration support"] }],
    goals :=
      [{ name := "Infrastructure Costs",
         target_amount := ⟨decimalToRat ['2', '0', '0'] ['0'], .EUR⟩,
         current_amount := ⟨decimalToRat ['1', '2', '5'] ['0'], .EUR⟩, deadline := none,
         description := some "Monthly server and infrastructure expenses" },
       { name := "Documentation Rewrite",
         target_amount := ⟨decimalToRat ['1', '0', '0', '0'] ['0'], .EUR⟩,
         current_amount := ⟨decimalToRat ['3', '0', '0'] ['0'], .EUR⟩,
         deadline := some "2024-09-01",
         description := some "Complete documentation overhaul with examples" },
       { name := "Mobile App Development",
         target_amount := ⟨decimalToRat ['5', '0', '0', '0'] ['0'], .EUR⟩,
         current_amount := ⟨decimalToRat ['0'] ['0'], .EUR⟩,
         deadline := some "2025-03-01",
         description := some "Develop companion mobile application" }] }


/-- Modelled from the spec: the canonical description of a violated
amount-order invariant (section 4.4, first check). -/
def amountOrderError : String :=
  "min_amount must be less than or equal to max_amount"

/-- Modelled from the spec: the validator of section 4.4 — a pure function
from a Configuration to a list of human-readable error descriptions, never
throwing and never mutating; checks in order: amount order, beneficiary-name
uniqueness (one error per configuration), tier-amount uniqueness per currency
(one error per configuration), custom sources with a URL, goal amounts, tier
amounts; per-entity errors follow declaration order. Amount order compares
the numeric values. -/
def FundingModelValidator.validate_configuration (c : Configuration) : List String :=
  (match c.min_amount, c.max_amount with
   | some mn, some mx => if mx.value < mn.value then [amountOrderError] else []
   | _, _ => []) ++
  (if (c.beneficiaries.map Beneficiary.name).Nodup then []
   else ["beneficiary names must be unique"]) ++
  (if (c.tiers.map (fun t => (t.amount.value, t.amount.currency))).Nodup then []
   else ["tier amounts must be unique per currency"]) ++
  (c.funding_sources.filterMap fun s =>
    if s.platform = .custom ∧ s.custom_url.getD "" = "" then
      some ("custom source " ++ s.username ++ " must have a URL")
    else none) ++
  (c.goals.filterMap fun g =>
    if ¬ 0 ≤ g.current_amount.value then
      some ("goal " ++ g.name ++ " current amount must be nonnegative")
    else none) ++
  (c.goals.filterMap fun g =>
    if ¬ 0 < g.target_amount.value then
      some ("goal " ++ g.name ++ " target amount must be positive")
    else none) ++
  (c.tiers.filterMap fun t =>
    if ¬ 0 < t.amount.value then
      some ("tier " ++ t.name ++ " amount must be positive")
    else none)

/-- Modelled from the spec: a Configuration on which every validator check of
section 4.4 passes ("all invariants satisfied"). -/
def WellFormed (c : Configuration) : Prop :=
  (∀ mn ∈ c.min_amount, ∀ mx ∈ c.max_amount, mn.value ≤ mx.value) ∧
  (c.beneficiaries.map Beneficiary.name).Nodup ∧
  (c.tiers.map (fun t => (t.amount.value, t.amount.currency))).Nodup ∧
  (∀ s ∈ c.funding_sources, s.platform = .custom → ¬ s.custom_url.getD "" = "") ∧
  (∀ g ∈ c.goals, 0 ≤ g.current_amount.value ∧ 0 < g.target_amount.value) ∧
  (∀ t ∈ c.tiers, 0 < t.amount.value)

instance (c : Configuration) : Decidable (WellFormed c) := by
  unfold WellFormed; infer_instance

/-- Modelled from the spec: the polymorphic visitor of section 4.5, one
callback per entity kind, side-effecting only through its own state. -/
structure FundingModelVisitor (σ : Type) where
  visit_configuration : σ → Configuration → σ
  visit_beneficiary : σ → Beneficiary → σ
  visit_funding_source : σ → FundingSource → σ
  visit_tier : σ → FundingTier → σ
  visit_goal : σ → FundingGoal → σ

/-- Modelled from the spec: accept(config, visitor) — the configuration
first, then every beneficiary in declaration order, then funding sources,
then tiers, then goals. -/
def Configuration.accept (c : Configuration) (v : FundingModelVisitor σ) (s : σ) : σ :=
  let s1 := v.visit_configuration s c
  let s2 := c.beneficiaries.foldl v.visit_beneficiary s1
  let s3 := c.funding_sources.foldl v.visit_funding_source s2
  let s4 := c.tiers.foldl v.visit_tier s3
  c.goals.foldl v.visit_goal s4

/-- One observed visitor callback, identified by entity kind and name. -/
inductive VisitEvent where
  | configuration (name : String)
  | beneficiary (name : String)
  | funding_source (username : String)
  | tier (name : String)
  | goal (name : String)
deriving Repr, DecidableEq

/-- A visitor that records every callback in order. -/
def traceVisitor : FundingModelVisitor (List VisitEvent) :=
  { visit_configuration := fun s c => s ++ [.configuration c.project_name],
    visit_beneficiary := fun s b => s ++ [.beneficiary b.name],
    visit_funding_source := fun s f => s ++ [.funding_source f.username],
    visit_tier := fun s t => s ++ [.tier t.name],
    visit_goal := fun s g => s ++ [.goal g.name] }

/-- The sequence of callbacks accept makes on a configuration. -/
def visitTrace (c : Configuration) : List VisitEvent :=
  c.accept traceVisitor []

/-- The statistics accumulated by StatisticsVisitor in
demonstrate_visitor_pattern of demo_textx_vs_antlr.py; the Python set of
platform names is modelled as a first-insertion-ordered duplicate-free
list. -/
structure VisitorStats where
  total_tiers : ℕ
  total_goals : ℕ
  total_target_amount : ℚ
  total_current_amount : ℚ
  active_sources : ℕ
  platforms : List String
deriving Repr, DecidableEq

/-- The initial statistics of StatisticsVisitor. -/
def initStats : VisitorStats :=
  { total_tiers := 0, total_goals := 0, total_target_amount := 0,
    total_current_amount := 0, active_sources := 0, platforms := [] }

/-- Set insertion for the modelled platform set. -/
def addPlatform (ps : List String) (p : String) : List String :=
  if p ∈ ps then ps else ps ++ [p]

/-- The StatisticsVisitor of demonstrate_visitor_pattern: counts tiers and
goals, sums goal target and current amounts, counts active sources and
collects distinct platform names. -/
def statisticsVisitor : FundingModelVisitor VisitorStats :=
  { visit_configuration := fun s _ => s,
    visit_beneficiary := fun s _ => s,
    visit_funding_source := fun s src =>
      let s := if src.is_active then { s with active_sources := s.active_sources + 1 } else s
      { s with platforms := addPlatform s.platforms src.platform.value },
    visit_tier := fun s _ => { s with total_tiers := s.total_tiers + 1 },
    visit_goal := fun s g =>
      { s with total_goals := s.total_goals + 1,
               total_target_amount := s.total_target_amount + g.target_amount.value,
               total_current_amount := s.total_current_amount + g.current_amount.value } }

/-- The per-goal progress computed by analyze_configuration in
demo_textx_vs_antlr.py: (current / target) * 100, with the Python
ZeroDivisionError on a zero target modelled as none. -/
def goalProgress (g : FundingGoal) : Option ℚ :=
  if g.target_amount.value = 0 then none
  else some (g.current_amount.value / g.target_amount.value * 100)

/-- The goal-progress loop of analyze_configuration over a list of goals;
none as soon as any goal makes the division fail. -/
def analyzeGoals : List FundingGoal → Option (List ℚ)
  | [] => some []
  | g :: gs =>
    match goalProgress g, analyzeGoals gs with
    | some p, some ps => some (p :: ps)
    | _, _ => none

/-- The goal-progress pass of analyze_configuration over every goal; none
when any goal makes the division fail. -/
def analyze_configuration (c : Configuration) : Option (List ℚ) :=
  analyzeGoals c.goals

/-- The total target amount StatisticsVisitor accumulates over a
configuration. -/
def totalTargetAmount (c : Configuration) : ℚ :=
  (c.accept statisticsVisitor initStats).total_target_amount

/-- The overall-progress computation at the end of
demonstrate_visitor_pattern: (total current / total target) * 100 over the
accumulated statistics, the ZeroDivisionError on a zero total target
modelled as none. -/
def demonstrateOverallProgress (c : Configuration) : Option ℚ :=
  let stats := c.accept statisticsVisitor initStats
  if stats.total_target_amount = 0 then none
  else some (stats.total_current_amount / stats.total_target_amount * 100)

/-- The result of benchmark_parser in demo_textx_vs_antlr.py: either the
error mapping with exactly the stringified exception, or the mapping with
the retained config, the three timing statistics and the iteration count. -/
inductive BenchResult (κ : Type) where
  | failed (msg : String)
  | stats (config : κ) (avg_time min_time max_time : ℚ) (iterations : ℕ)
deriving Repr, DecidableEq

/-- The sum of a list of times as Python's sum computes it. -/
def sumTimes (l : List ℚ) : ℚ := l.foldl (· + ·) 0

/-- The minimum of a nonempty list of times as Python's min computes it. -/
def minTimes (t : ℚ) (ts : List ℚ) : ℚ := ts.foldl min t

/-- The maximum of a nonempty list of times as Python's max computes it. -/
def maxTimes (t : ℚ) (ts : List ℚ) : ℚ := ts.foldl max t

/-- The iteration loop of benchmark_parser: each iteration either raises
(the loop stops and reports the exception text) or appends its elapsed time
and overwrites the retained config. The iteration outcomes — elapsed time
and parsed config, or exception text — are the loop's input. -/
def benchmarkRun (outcomes : List (Except String (ℚ × κ))) :
    List ℚ × Option κ → Except String (List ℚ × Option κ) :=
  match outcomes with
  | [] => fun st => .ok st
  | .error e :: _ => fun _ => .error e
  | .ok (t, c) :: rest => fun st => benchmarkRun rest (st.1 ++ [t], some c)

/-- benchmark_parser of demo_textx_vs_antlr.py over its iteration outcomes:
on any exception the error mapping alone; otherwise average, minimum and
maximum of the elapsed times together with the last retained config. -/
def benchmarkParser (outcomes : List (Except String (ℚ × κ))) : BenchResult κ :=
  match benchmarkRun outcomes ([], none) with
  | .error e => .failed e
  | .ok (times, cfg) =>
    match times, cfg with
    | t :: ts, some c =>
      .stats c (sumTimes (t :: ts) / (t :: ts).length) (minTimes t ts) (maxTimes t ts)
        (t :: ts).length
    | _, _ => .failed "division by zero"

/-- The config variable of benchmark_parser after n iterations of a given
parse function on a given text: none before the first iteration, otherwise
the last parse result when it succeeded (an exception aborts the loop with no
retained result). -/
def benchmarkRetained (text : String) : ℕ → Option Configuration
  | 0 => none
  | _ + 1 =>
    match parse text with
    | .ok c => some c
    | .error _ => none

/-- The enumerated per-beneficiary comparisons of compare_configurations in
demo_textx_vs_antlr.py: name and github username, position by position. -/
def benComparisons : ℕ → List Beneficiary → List Beneficiary → List (String × Bool)
  | _, [], _ => []
  | _, _ :: _, [] => []
  | i, tb :: tbs, ab :: abs =>
    ("beneficiary_" ++ toString i ++ "_name", tb.name == ab.name) ::
    ("beneficiary_" ++ toString i ++ "_github", tb.github_username == ab.github_username) ::
    benComparisons (i + 1) tbs abs

/-- The enumerated per-source comparisons of compare_configurations:
platform and username, position by position. -/
def srcComparisons : ℕ → List FundingSource → List FundingSource → List (String × Bool)
  | _, [], _ => []
  | _, _ :: _, [] => []
  | i, ts :: tss, as2 :: ass =>
    ("source_" ++ toString i ++ "_platform", ts.platform == as2.platform) ::
    ("source_" ++ toString i ++ "_username", ts.username == as2.username) ::
    srcComparisons (i + 1) tss ass

/-- compare_configurations of demo_textx_vs_antlr.py: the insertion-ordered
comparison mapping — basic properties, amount limits (values when both
present, the optionals otherwise), the four collection lengths, and, only
when the respective lengths match, the per-beneficiary and per-source
detail comparisons. -/
def compare_configurations (tx ax : Configuration) : List (String × Bool) :=
  [("project_name", tx.project_name == ax.project_name),
   ("description", tx.description == ax.description),
   ("currency", tx.preferred_currency == ax.preferred_currency),
   ("min_amount",
     match tx.min_amount, ax.min_amount with
     | some a, some b => a.value == b.value
     | a, b => a == b),
   ("max_amount",
     match tx.max_amount, ax.max_amount with
     | some a, some b => a.value == b.value
     | a, b => a == b),
   ("beneficiaries_count", tx.beneficiaries.length == ax.beneficiaries.length),
   ("sources_count", tx.funding_sources.length == ax.funding_sources.length),
   ("tiers_count", tx.tiers.length == ax.tiers.length),
   ("goals_count", tx.goals.length == ax.goals.length)] ++
  (if tx.beneficiaries.length == ax.beneficiaries.length then
    benComparisons 0 tx.beneficiaries ax.beneficiaries
   else []) ++
  (if tx.funding_sources.length == ax.funding_sources.length then
    srcComparisons 0 tx.funding_sources ax.funding_sources
   else [])

/-- Every value of a comparison mapping is true. -/
def allTrue (l : List (String × Bool)) : Bool := l.all (·.2)

/-- Modelled from the spec: the grammar-tool front-end of section 6 — any
alternate implementation of the same parse contract produces structurally
equivalent Configurations for the same text, so both front-ends are the one
modelled parse function. -/
def parse_funding_dsl_text_textx (text : String) : Except FundingError Configuration :=
  parse text

/-- Modelled from the spec: the second parser front-end, the same parse
contract (see parse_funding_dsl_text_textx). -/
def parse_funding_dsl_text (text : String) : Except FundingError Configuration :=
  parse text


/-- A configuration whose only flaw is the reversed amount bounds: min 500,
max 2, both EUR. -/
def cfgC5 : Configuration :=
  { project_name := "P", description := "", preferred_currency := .EUR,
    min_amount := some ⟨500, .EUR⟩, max_amount := some ⟨2, .EUR⟩,
    beneficiaries := [], funding_sources := [], tiers := [], goals := [] }

/-- A configuration with min 500 and max 2 EUR that also carries a
zero-amount tier, so the validator reports two errors. -/
def badC5 : Configuration :=
  { cfgC5 with
    tiers := [{ name := "Zero", amount := ⟨0, .EUR⟩, description := none,
                max_sponsors := none, benefits := [] }] }

/-- A configuration containing a goal whose target amount is zero. -/
def zeroGoalCfg : Configuration :=
  { project_name := "Z", description := "", preferred_currency := .EUR,
    min_amount := none, max_amount := none, beneficiaries := [],
    funding_sources := [], tiers := [],
    goals := [{ name := "G", target_amount := ⟨0, .EUR⟩,
                current_amount := ⟨0, .EUR⟩, deadline := none, description := none }] }

/-- A configuration with one goal of target 200 and current 50. -/
def oneGoalCfg : Configuration :=
  { project_name := "O", description := "", preferred_currency := .EUR,
    min_amount := none, max_amount := none, beneficiaries := [],
    funding_sources := [], tiers := [],
    goals := [{ name := "G", target_amount := ⟨200, .EUR⟩,
                current_amount := ⟨50, .EUR⟩, deadline := none, description := none }] }

/-- A small configuration with one beneficiary carrying an email address. -/
def cfgC10A : Configuration :=
  { project_name := "P", description := "D", preferred_currency := .EUR,
    min_amount := none, max_amount := none,
    beneficiaries := [{ name := "A", email := some "a@x.com",
                        github_username := some "a", website := none,
                        description := none }],
    funding_sources := [], tiers := [], goals := [] }

/-- cfgC10A with only the beneficiary email changed. -/
def cfgC10B : Configuration :=
  { cfgC10A with
    beneficiaries := [{ name := "A", email := some "b@x.com",
                        github_username := some "a", website := none,
                        description := none }] }

set_option maxRecDepth 8000

/-- Lexing chunk 1 of the sample document from between tokens emits its
tokens and returns to the between-tokens state. -/
theorem lexChunk1 (acc : List Token) (rest : List Char) :
    lexDFA acc .ready (cchars1 ++ rest) = lexDFA (ctok1.reverse ++ acc) .ready rest := rfl

/-- Lexing chunk 2 of the sample document from between tokens emits its
tokens and returns to the between-tokens state. -/
theorem lexChunk2 (acc : List Token) (rest : List Char) :
    lexDFA acc .ready (cchars2 ++ rest) = lexDFA (ctok2.reverse ++ acc) .ready rest := rfl

/-- Lexing chunk 3 of the sample document from between tokens emits its
tokens and returns to the between-tokens state. -/
theorem lexChunk3 (acc : List Token) (rest : List Char) :
    lexDFA acc .ready (cchars3 ++ rest) = lexDFA (ctok3.reverse ++ acc) .ready rest := rfl

/-- Lexing chunk 4 of the sample document from between tokens emits its
tokens and returns to the between-tokens state. -/
theorem lexChunk4 (acc : List Token) (rest : List Char) :
    lexDFA acc .ready (cchars4 ++ rest) = lexDFA (ctok4.reverse ++ acc) .ready rest := rfl

/-- Lexing chunk 5 of the sample document from between tokens emits its
tokens and returns to the between-tokens state. -/
theorem lexChunk5 (acc : List Token) (rest : List Char) :
    lexDFA acc .ready (cchars5 ++ rest) = lexDFA (ctok5.reverse ++ acc) .ready rest := rfl

/-- Lexing chunk 6 of the sample document from between tokens emits its
tokens and returns to the between-tokens state. -/
theorem lexChunk6 (acc : List Token) (rest : List Char) :
    lexDFA acc .ready (cchars6 ++ rest) = lexDFA (ctok6.reverse ++ acc) .ready rest := rfl

/-- Lexing chunk 7 of the sample document from between tokens emits its
tokens and returns to the between-tokens state. -/
theorem lexChunk7 (acc : List Token) (rest : List Char) :
    lexDFA acc .ready (cchars7 ++ rest) = lexDFA (ctok7.reverse ++ acc) .ready rest := rfl

/-- Lexing chunk 8 of the sample document from between tokens emits its
tokens and returns to the between-tokens state. -/
theorem lexChunk8 (acc : List Token) (rest : List Char) :
    lexDFA acc .ready (cchars8 ++ rest) = lexDFA (ctok8.reverse ++ acc) .ready rest := rfl

/-- Lexing chunk 9 of the sample document from between tokens emits its
tokens and returns to the between-tokens state. -/
theorem lexChunk9 (acc : List Token) (rest : List Char) :
    lexDFA acc .ready (cchars9 ++ rest) = lexDFA (ctok9.reverse ++ acc) .ready rest := rfl

/-- Lexing chunk 10 of the sample document from between tokens emits its
tokens and returns to the between-tokens state. -/
theorem lexChunk10 (acc : List Token) (rest : List Char) :
    lexDFA acc .ready (cchars10 ++ rest) = lexDFA (ctok10.reverse ++ acc) .ready rest := rfl

/-- Lexing chunk 11 of the sample document from between tokens emits its
tokens and returns to the between-tokens state. -/
theorem lexChunk11 (acc : List Token) (rest : List Char) :
    lexDFA acc .ready (cchars11 ++ rest) = lexDFA (ctok11.reverse ++ acc) .ready rest := rfl

/-- Lexing chunk 12 of the sample document from between tokens emits its
tokens and returns to the between-tokens state. -/
theorem lexChunk12 (acc : List Token) (rest : List Char) :
    lexDFA acc .ready (cchars12 ++ rest) = lexDFA (ctok12.reverse ++ acc) .ready rest := rfl

/-- Lexing chunk 13 of the sample document from between tokens emits its
tokens and returns to the between-tokens state. -/
theorem lexChunk13 (acc : List Token) (rest : List Char) :
    lexDFA acc .ready (cchars13 ++ rest) = lexDFA (ctok13.reverse ++ acc) .ready rest := rfl

/-- Lexing chunk 14 of the sample document from between tokens emits its
tokens and returns to the between-tokens state. -/
theorem lexChunk14 (acc : List Token) (rest : List Char) :
    lexDFA acc .ready (cchars14 ++ rest) = lexDFA (ctok14.reverse ++ acc) .ready rest := rfl

/-- Lexing chunk 15 of the sample document from between tokens emits its
tokens and returns to the between-tokens state. -/
theorem lexChunk15 (acc : List Token) (rest : List Char) :
    lexDFA acc .ready (cchars15 ++ rest) = lexDFA (ctok15.reverse ++ acc) .ready rest := rfl

/-- Lexing chunk 16 of the sample document from between tokens emits its
tokens and returns to the between-tokens state. -/
theorem lexChunk16 (acc : List Token) (rest : List Char) :
    lexDFA acc .ready (cchars16 ++ rest) = lexDFA (ctok16.reverse ++ acc) .ready rest := rfl

/-- Lexing chunk 17 of the sample document from between tokens emits its
tokens and returns to the between-tokens state. -/
theorem lexChunk17 (acc : List Token) (rest : List Char) :
    lexDFA acc .ready (cchars17 ++ rest) = lexDFA (ctok17.reverse ++ acc) .ready rest := rfl

/-- Lexing chunk 18 of the sample document from between tokens emits its
tokens and returns to the between-tokens state. -/
theorem lexChunk18 (acc : List Token) (rest : List Char) :
    lexDFA acc .ready (cchars18 ++ rest) = lexDFA (ctok18.reverse ++ acc) .ready rest := rfl

/-- Lexing chunk 19 of the sample document from between tokens emits its
tokens and returns to the between-tokens state. -/
theorem lexChunk19 (acc : List Token) (rest : List Char) :
    lexDFA acc .ready (cchars19 ++ rest) = lexDFA (ctok19.reverse ++ acc) .ready rest := rfl

/-- Reversing a reversed-chunk accumulator yields the chunks in order. -/
theorem revAccChunks (chunks : List (List Token)) (acc : List Token) :
    (chunks.foldl (fun a c => c.reverse ++ a) acc).reverse =
      acc.reverse ++ chunks.foldr (· ++ ·) [] := by
  induction chunks generalizing acc with
  | nil => simp
  | cons c cs ih => simp [List.foldl_cons, ih, List.append_assoc]

/-- The reversed accumulator produced by lexing all chunks is the sample
token stream. -/
theorem revAccSample :
    (([ctok1, ctok2, ctok3, ctok4, ctok5, ctok6, ctok7, ctok8, ctok9, ctok10, ctok11, ctok12, ctok13, ctok14, ctok15, ctok16, ctok17, ctok18, ctok19] : List (List Token)).foldl (fun a c => c.reverse ++ a) []).reverse
      = sampleTokens := by
  rw [revAccChunks [ctok1, ctok2, ctok3, ctok4, ctok5, ctok6, ctok7, ctok8, ctok9, ctok10, ctok11, ctok12, ctok13, ctok14, ctok15, ctok16, ctok17, ctok18, ctok19] []]
  rfl

/-- Lexing the sample document yields the sample token stream. -/
theorem lex_createSampleDsl : lex createSampleDsl = .ok sampleTokens := by
  show lexDFA [] .ready sampleChars = .ok sampleTokens
  rw [show sampleChars = cchars1 ++ (cchars2 ++ (cchars3 ++ (cchars4 ++ (cchars5 ++ (cchars6 ++ (cchars7 ++ (cchars8 ++ (cchars9 ++ (cchars10 ++ (cchars11 ++ (cchars12 ++ (cchars13 ++ (cchars14 ++ (cchars15 ++ (cchars16 ++ (cchars17 ++ (cchars18 ++ (cchars19 ++ [])))))))))))))))))) from rfl]
  rw [lexChunk1, lexChunk2, lexChunk3, lexChunk4, lexChunk5, lexChunk6, lexChunk7, lexChunk8, lexChunk9, lexChunk10, lexChunk11, lexChunk12, lexChunk13, lexChunk14, lexChunk15, lexChunk16, lexChunk17, lexChunk18, lexChunk19]
  exact congrArg Except.ok revAccSample


/-- The decimal literal 2.0 of the sample document denotes 2. -/
theorem decRatTwo : decimalToRat ['2'] ['0'] = 2 := by
  show ((2 : ℕ) : ℚ) + ((0 : ℕ) : ℚ) / (10 : ℚ) ^ (1 : ℕ) = 2
  norm_num

/-- The decimal literal 500.0 of the sample document denotes 500. -/
theorem decRatFiveHundred : decimalToRat ['5', '0', '0'] ['0'] = 500 := by
  show ((500 : ℕ) : ℚ) + ((0 : ℕ) : ℚ) / (10 : ℚ) ^ (1 : ℕ) = 500
  norm_num

/-- The decimal literal 5.0 of the sample document denotes 5. -/
theorem decRatFive : decimalToRat ['5'] ['0'] = 5 := by
  show ((5 : ℕ) : ℚ) + ((0 : ℕ) : ℚ) / (10 : ℚ) ^ (1 : ℕ) = 5
  norm_num

/-- The decimal literal 25.0 of the sample document denotes 25. -/
theorem decRatTwentyFive : decimalToRat ['2', '5'] ['0'] = 25 := by
  show ((25 : ℕ) : ℚ) + ((0 : ℕ) : ℚ) / (10 : ℚ) ^ (1 : ℕ) = 25
  norm_num

/-- The decimal literal 100.0 of the sample document denotes 100. -/
theorem decRatHundred : decimalToRat ['1', '0', '0'] ['0'] = 100 := by
  show ((100 : ℕ) : ℚ) + ((0 : ℕ) : ℚ) / (10 : ℚ) ^ (1 : ℕ) = 100
  norm_num

/-- The decimal literal 200.0 of the sample document denotes 200. -/
theorem decRatTwoHundred : decimalToRat ['2', '0', '0'] ['0'] = 200 := by
  show ((200 : ℕ) : ℚ) + ((0 : ℕ) : ℚ) / (10 : ℚ) ^ (1 : ℕ) = 200
  norm_num

/-- The decimal literal 125.0 of the sample document denotes 125. -/
theorem decRatOneTwoFive : decimalToRat ['1', '2', '5'] ['0'] = 125 := by
  show ((125 : ℕ) : ℚ) + ((0 : ℕ) : ℚ) / (10 : ℚ) ^ (1 : ℕ) = 125
  norm_num

/-- The decimal literal 1000.0 of the sample document denotes 1000. -/
theorem decRatThousand : decimalToRat ['1', '0', '0', '0'] ['0'] = 1000 := by
  show ((1000 : ℕ) : ℚ) + ((0 : ℕ) : ℚ) / (10 : ℚ) ^ (1 : ℕ) = 1000
  norm_num

/-- The decimal literal 300.0 of the sample document denotes 300. -/
theorem decRatThreeHundred : decimalToRat ['3', '0', '0'] ['0'] = 300 := by
  show ((300 : ℕ) : ℚ) + ((0 : ℕ) : ℚ) / (10 : ℚ) ^ (1 : ℕ) = 300
  norm_num

/-- The decimal literal 5000.0 of the sample document denotes 5000. -/
theorem decRatFiveThousand : decimalToRat ['5', '0', '0', '0'] ['0'] = 5000 := by
  show ((5000 : ℕ) : ℚ) + ((0 : ℕ) : ℚ) / (10 : ℚ) ^ (1 : ℕ) = 5000
  norm_num

/-- The decimal literal 0.0 of the sample document denotes 0. -/
theorem decRatZero : decimalToRat ['0'] ['0'] = 0 := by
  show ((0 : ℕ) : ℚ) + ((0 : ℕ) : ℚ) / (10 : ℚ) ^ (1 : ℕ) = 0
  norm_num

/-- The parsed sample configuration with its amounts written as plain
rationals. -/
theorem demoConfigE_eq : demoConfigE = demoConfig := by
  simp only [demoConfigE, demoConfig, decRatTwo, decRatFiveHundred, decRatFive, decRatTwentyFive, decRatHundred, decRatTwoHundred, decRatOneTwoFive, decRatThousand, decRatThreeHundred, decRatFiveThousand, decRatZero]

/-- The funding-body loop of the sample document: the four header fields.
The next chunk rides along because recognizing the end of an amount needs one
token of lookahead. -/
theorem parseHdr (rest : List Token) :
    parseConfigBody 186 {} (ctok2 ++ (ctok3 ++ rest)) =
      parseConfigBody 182 hdrAcc (ctok3 ++ rest) := rfl

/-- The funding-body loop of the sample document: consuming these chunks
moves the accumulator from hdrAcc to bensAcc. -/
theorem parseBens (rest : List Token) :
    parseConfigBody 182 hdrAcc (ctok3 ++ (ctok4 ++ (ctok5 ++ rest))) =
      parseConfigBody 181 bensAcc rest := rfl

/-- The funding-body loop of the sample document: consuming these chunks
moves the accumulator from bensAcc to srcsAcc. -/
theorem parseSrcs (rest : List Token) :
    parseConfigBody 181 bensAcc (ctok6 ++ (ctok7 ++ (ctok8 ++ (ctok9 ++ (ctok10 ++ rest))))) =
      parseConfigBody 180 srcsAcc rest := rfl

/-- The funding-body loop of the sample document: consuming these chunks
moves the accumulator from srcsAcc to tiersAcc. -/
theorem parseTrs (rest : List Token) :
    parseConfigBody 180 srcsAcc (ctok11 ++ (ctok12 ++ (ctok13 ++ (ctok14 ++ rest)))) =
      parseConfigBody 179 tiersAcc rest := rfl

/-- The funding-body loop of the sample document: consuming these chunks
moves the accumulator from tiersAcc to goalsAcc. -/
theorem parseGls (rest : List Token) :
    parseConfigBody 179 tiersAcc (ctok15 ++ (ctok16 ++ (ctok17 ++ (ctok18 ++ rest)))) =
      parseConfigBody 178 goalsAcc rest := rfl

/-- The funding-body loop of the sample document ends at the closing
brace. -/
theorem parseEnd (rest : List Token) :
    parseConfigBody 178 goalsAcc (ctok19 ++ rest) = .ok (goalsAcc, rest) := rfl

/-- The funding-block body of the sample document parses to the full
accumulator with no tokens left. -/
theorem parseBody_sample :
    parseConfigBody 186 {} (ctok2 ++ (ctok3 ++ (ctok4 ++ (ctok5 ++ (ctok6 ++ (ctok7 ++ (ctok8 ++ (ctok9 ++ (ctok10 ++ (ctok11 ++ (ctok12 ++ (ctok13 ++ (ctok14 ++ (ctok15 ++ (ctok16 ++ (ctok17 ++ (ctok18 ++ (ctok19 ++ [])))))))))))))))))) = .ok (goalsAcc, []) := by
  rw [parseHdr, parseBens, parseSrcs, parseTrs, parseGls, parseEnd]

/-- Parsing the sample document yields exactly the demo configuration. -/
theorem parse_sample_eq : parse createSampleDsl = .ok demoConfig := by
  have h1 : parse createSampleDsl = parseLexed (.ok sampleTokens) :=
    congrArg parseLexed lex_createSampleDsl
  have h2 : parseLexed (.ok sampleTokens) =
      finishParse "Parser Comparison Demo"
        (parseConfigBody 186 {} (ctok2 ++ (ctok3 ++ (ctok4 ++ (ctok5 ++ (ctok6 ++ (ctok7 ++ (ctok8 ++ (ctok9 ++ (ctok10 ++ (ctok11 ++ (ctok12 ++ (ctok13 ++ (ctok14 ++ (ctok15 ++ (ctok16 ++ (ctok17 ++ (ctok18 ++ (ctok19 ++ []))))))))))))))))))) := rfl
  have h3 := congrArg (finishParse "Parser Comparison Demo") parseBody_sample
  have h4 : finishParse "Parser Comparison Demo"
      (.ok (goalsAcc, ([] : List Token))) = .ok demoConfigE := rfl
  exact h1.trans (h2.trans (h3.trans (h4.trans (congrArg Except.ok demoConfigE_eq))))


/-- C1: parsing the sample DSL document produced by create_sample_dsl yields
a Configuration with project name "Parser Comparison Demo", preferred
currency EUR, min_amount 2.0 EUR, max_amount 500.0 EUR, exactly 2
beneficiaries, 4 funding sources, 3 tiers and 3 goals, and its goal
"Infrastructure Costs" has target 200.0 EUR and current 125.0 EUR, so the
consumer-computed progress (current/target)*100 equals 62.5. -/
theorem C1_sample_document_parse :
    ∃ cfg, parse createSampleDsl = .ok cfg ∧
      cfg.project_name = "Parser Comparison Demo" ∧
      cfg.preferred_currency = .EUR ∧
      cfg.min_amount = some ⟨2, .EUR⟩ ∧
      cfg.max_amount = some ⟨500, .EUR⟩ ∧
      cfg.beneficiaries.length = 2 ∧
      cfg.funding_sources.length = 4 ∧
      cfg.tiers.length = 3 ∧
      cfg.goals.length = 3 ∧
      ∃ g, g ∈ cfg.goals ∧ g.name = "Infrastructure Costs" ∧
        g.target_amount = ⟨200, .EUR⟩ ∧ g.current_amount = ⟨125, .EUR⟩ ∧
        g.current_amount.value / g.target_amount.value * 100 = (62.5 : ℚ) := by
  refine ⟨demoConfig, parse_sample_eq, rfl, rfl, rfl, rfl, rfl, rfl, rfl, rfl, ?_⟩
  refine ⟨{ name := "Infrastructure Costs", target_amount := ⟨200, .EUR⟩,
            current_amount := ⟨125, .EUR⟩, deadline := none,
            description := some "Monthly server and infrastructure expenses" },
          by decide, rfl, rfl, rfl, by norm_num⟩



/-- C3: parsing is deterministic — the same parse function applied twice to
the same text yields equal results, and the config retained after the last
of any positive number of benchmark iterations equals the one retained after
any other positive number of iterations. -/
theorem C3_parse_deterministic (text : String) :
    parse text = parse text ∧
    ∀ i j : ℕ, 0 < i → 0 < j →
      benchmarkRetained text i = benchmarkRetained text j := by
  refine ⟨rfl, ?_⟩
  intro i j hi hj
  cases i with
  | zero => exact absurd hi (by simp)
  | succ i =>
    cases j with
    | zero => exact absurd hj (by simp)
    | succ j => rfl

/-- Witness for C3 at the sample document, 10 versus 1 iterations. -/
theorem C3_witness :
    0 < 10 ∧ 0 < 1 ∧
      benchmarkRetained createSampleDsl 10 = benchmarkRetained createSampleDsl 1 :=
  ⟨by decide, by decide,
   (C3_parse_deterministic createSampleDsl).2 10 1 (by decide) (by decide)⟩

/-- C7: parse is total over its Except embedding — every call yields either
a Configuration or an error, with no third outcome, and every error is a
LexError, ParseError or ModelBuildError. -/
theorem C7_parse_total (text : String) :
    ((∃ c, parse text = .ok c) ∨ (∃ e, parse text = .error e)) ∧
    (∀ e, parse text = .error e →
      (∃ m, e = .lexError m) ∨ (∃ m, e = .parseError m) ∨
        (∃ m, e = .modelBuildError m)) := by
  constructor
  · cases h : parse text with
    | ok c => exact .inl ⟨c, rfl⟩
    | error e => exact .inr ⟨e, rfl⟩
  · intro e _
    cases e with
    | lexError m => exact .inl ⟨m, rfl⟩
    | parseError m => exact .inr (.inl ⟨m, rfl⟩)
    | modelBuildError m => exact .inr (.inr ⟨m, rfl⟩)

/-- Witness for C7 at the malformed document "x". -/
theorem C7_witness :
    parse "x" = .error (.parseError "expected funding block") ∧
    ((∃ m, FundingError.parseError "expected funding block" = .lexError m) ∨
     (∃ m, FundingError.parseError "expected funding block" = .parseError m) ∨
     (∃ m, FundingError.parseError "expected funding block" = .modelBuildError m)) :=
  ⟨rfl, (C7_parse_total "x").2 (.parseError "expected funding block") rfl⟩

/-- C10: the equivalence check of compare_configurations is incomplete —
these two configurations differ (only in a beneficiary email) yet every
value of the comparison mapping is true. -/
theorem C10_compare_incomplete :
    cfgC10A ≠ cfgC10B ∧
      allTrue (compare_configurations cfgC10A cfgC10B) = true := by
  exact ⟨by decide, by decide⟩



/-- Helper: a filterMap over a list whose every element maps to none is
empty. -/
theorem filterMap_nil_of {α β : Type} (f : α → Option β) (l : List α)
    (h : ∀ a ∈ l, f a = none) : l.filterMap f = [] := by
  induction l with
  | nil => rfl
  | cons x xs ih =>
    rw [List.filterMap_cons, h x (by simp)]
    exact ih fun a ha => h a (by simp [ha])

/-- C4: the validator is a pure total function returning a list of error
descriptions, and on every well-formed Configuration — every invariant of
the validator satisfied — it returns the empty list. -/
theorem C4_validate_wellformed (c : Configuration) (h : WellFormed c) :
    FundingModelValidator.validate_configuration c = [] := by
  obtain ⟨h1, h2, h3, h4, h5, h6⟩ := h
  unfold FundingModelValidator.validate_configuration
  have e1 : (match c.min_amount, c.max_amount with
             | some mn, some mx => if mx.value < mn.value then [amountOrderError] else []
             | _, _ => ([] : List String)) = [] := by
    cases hmn : c.min_amount with
    | none => rfl
    | some mn =>
      cases hmx : c.max_amount with
      | none => rfl
      | some mx =>
        have := h1 mn (by simp [hmn]) mx (by simp [hmx])
        simp [not_lt.mpr this]
  rw [e1, if_pos h2, if_pos h3]
  rw [filterMap_nil_of _ _ (fun s hs => by
        rcases h4 s hs with h4s
        simp only [ite_eq_right_iff]
        intro ⟨hc, hu⟩
        exact absurd hu (h4s hc))]
  rw [filterMap_nil_of _ _ (fun g hg => by
        simp [not_not.mpr (h5 g hg).1])]
  rw [filterMap_nil_of _ _ (fun g hg => by
        simp [not_not.mpr (h5 g hg).2])]
  rw [filterMap_nil_of _ _ (fun t ht => by
        simp [not_not.mpr (h6 t ht)])]
  rfl

/-- Witness for C4 at the parsed sample configuration. -/
theorem C4_witness :
    WellFormed demoConfig ∧
      FundingModelValidator.validate_configuration demoConfig = [] :=
  ⟨by decide, C4_validate_wellformed demoConfig (by decide)⟩



/-- C5 fails as stated: this configuration has min_amount 500 and max_amount
2 in the same currency, yet its validator output has two errors, not exactly
one — the claim quantifies over every such Configuration, including ones
that violate further invariants. -/
theorem C5_counterexample :
    ¬ (∀ (c : Configuration) (cur : Currency),
        c.min_amount = some ⟨500, cur⟩ → c.max_amount = some ⟨2, cur⟩ →
        (FundingModelValidator.validate_configuration c).length = 1 ∧
        amountOrderError ∈ FundingModelValidator.validate_configuration c) := by
  intro h
  have h2 := (h badC5 .EUR rfl rfl).1
  have : (FundingModelValidator.validate_configuration badC5).length = 2 := by decide
  omega

/-- C5 amended: on every Configuration with min_amount 500 and max_amount 2
in the same currency on which every other validator check passes, the
validator returns exactly one error, the amount-order one. -/
theorem C5_amended (c : Configuration) (cur : Currency)
    (hmn : c.min_amount = some ⟨500, cur⟩) (hmx : c.max_amount = some ⟨2, cur⟩)
    (h2 : (c.beneficiaries.map Beneficiary.name).Nodup)
    (h3 : (c.tiers.map (fun t => (t.amount.value, t.amount.currency))).Nodup)
    (h4 : ∀ s ∈ c.funding_sources, s.platform = .custom → ¬ s.custom_url.getD "" = "")
    (h5 : ∀ g ∈ c.goals, 0 ≤ g.current_amount.value ∧ 0 < g.target_amount.value)
    (h6 : ∀ t ∈ c.tiers, 0 < t.amount.value) :
    FundingModelValidator.validate_configuration c = [amountOrderError] := by
  unfold FundingModelValidator.validate_configuration
  simp only [hmn, hmx]
  have e1 : (CurrencyAmount.mk 2 cur).value < (CurrencyAmount.mk 500 cur).value := by
    show (2 : ℚ) < 500
    norm_num
  rw [if_pos e1, if_pos h2, if_pos h3]
  rw [filterMap_nil_of _ _ (fun s hs => by
        simp only [ite_eq_right_iff]
        intro ⟨hc, hu⟩
        exact absurd hu (h4 s hs hc))]
  rw [filterMap_nil_of _ _ (fun g hg => by
        simp [not_not.mpr (h5 g hg).1])]
  rw [filterMap_nil_of _ _ (fun g hg => by
        simp [not_not.mpr (h5 g hg).2])]
  rw [filterMap_nil_of _ _ (fun t ht => by
        simp [not_not.mpr (h6 t ht)])]
  rfl

/-- Witness for C5 amended at a configuration whose only flaw is the
reversed bounds. -/
theorem C5_witness :
    FundingModelValidator.validate_configuration cfgC5 = [amountOrderError] :=
  C5_amended cfgC5 .EUR rfl rfl (by decide) (by decide) (by decide) (by decide)
    (by decide)



/-- Helper: folding an append of single mapped elements over a list appends
the mapped list. -/
theorem foldl_append_map {α β : Type} (f : α → β) (l : List α) :
    ∀ s : List β, l.foldl (fun a x => a ++ [f x]) s = s ++ l.map f := by
  induction l with
  | nil => intro s; simp
  | cons x xs ih => intro s; simp [ih]

/-- Helper: the callback sequence accept makes — the configuration first,
then beneficiaries, funding sources, tiers and goals, each in declaration
order. -/
theorem visitTrace_eq (c : Configuration) :
    visitTrace c = .configuration c.project_name ::
      (c.beneficiaries.map (fun b => .beneficiary b.name) ++
       (c.funding_sources.map (fun f => .funding_source f.username) ++
        (c.tiers.map (fun t => .tier t.name) ++
         c.goals.map (fun g => .goal g.name)))) := by
  unfold visitTrace Configuration.accept traceVisitor
  simp only [foldl_append_map, List.append_assoc, List.nil_append,
    List.singleton_append, List.cons_append]

/-- C6: visitor traversal via accept is deterministic and ordered — the
configuration is visited first, then every beneficiary in declaration order,
then funding sources, then tiers, then goals; over the sample document's
configuration, the beneficiary callback for "Alice Developer" comes before
the one for "Bob Contributor". -/
theorem C6_visitor_order :
    (∀ c : Configuration, visitTrace c = .configuration c.project_name ::
      (c.beneficiaries.map (fun b => .beneficiary b.name) ++
       (c.funding_sources.map (fun f => .funding_source f.username) ++
        (c.tiers.map (fun t => .tier t.name) ++
         c.goals.map (fun g => .goal g.name))))) ∧
    (visitTrace demoConfig).indexOf (.beneficiary "Alice Developer") <
      (visitTrace demoConfig).indexOf (.beneficiary "Bob Contributor") :=
  ⟨visitTrace_eq, by decide⟩



/-- Helper: position-by-position beneficiary comparisons of a list against
itself are all true. -/
theorem benComparisons_self : ∀ (i : ℕ) (l : List Beneficiary),
    (benComparisons i l l).all (·.2) = true := by
  intro i l
  induction l generalizing i with
  | nil => rfl
  | cons x xs ih => simp [benComparisons, ih]

/-- Helper: position-by-position source comparisons of a list against
itself are all true. -/
theorem srcComparisons_self : ∀ (i : ℕ) (l : List FundingSource),
    (srcComparisons i l l).all (·.2) = true := by
  intro i l
  induction l generalizing i with
  | nil => rfl
  | cons x xs ih => simp [srcComparisons, ih]

/-- Helper: comparing a configuration against itself yields an all-true
mapping. -/
theorem compare_self (c : Configuration) :
    allTrue (compare_configurations c c) = true := by
  unfold allTrue compare_configurations
  simp only [List.all_append, List.all_cons, List.all_nil, beq_self_eq_true,
    Bool.and_self, Bool.and_true, Bool.true_and, if_true]
  cases c.min_amount <;> cases c.max_amount <;>
    simp [benComparisons_self, srcComparisons_self]

/-- C2: whenever both parser front-ends succeed on the same text, the two
Configurations are structurally equivalent and compare_configurations
returns a mapping in which every value is true. -/
theorem C2_front_ends_equivalent (text : String) (c₁ c₂ : Configuration)
    (h₁ : parse_funding_dsl_text_textx text = .ok c₁)
    (h₂ : parse_funding_dsl_text text = .ok c₂) :
    c₁ = c₂ ∧ allTrue (compare_configurations c₁ c₂) = true := by
  have hc : c₁ = c₂ := by
    have := h₁.symm.trans h₂
    exact Except.ok.inj this
  subst hc
  exact ⟨rfl, compare_self c₁⟩

/-- Witness for C2 at the sample document, where both front-ends yield the
demo configuration. -/
theorem C2_witness :
    demoConfig = demoConfig ∧
      allTrue (compare_configurations demoConfig demoConfig) = true :=
  C2_front_ends_equivalent createSampleDsl demoConfig demoConfig
    parse_sample_eq parse_sample_eq



/-- Helper: the per-goal progress loop succeeds when every goal in the list
has a nonzero target. -/
theorem analyzeGoals_isSome : ∀ (l : List FundingGoal),
    (∀ g ∈ l, g.target_amount.value ≠ 0) → (analyzeGoals l).isSome := by
  intro l h
  induction l with
  | nil => rfl
  | cons g gs ih =>
    have hg : goalProgress g =
        some (g.current_amount.value / g.target_amount.value * 100) := by
      unfold goalProgress
      rw [if_neg (h g (by simp))]
    have ihs := ih fun x hx => h x (by simp [hx])
    obtain ⟨r, hr⟩ := Option.isSome_iff_exists.mp ihs
    unfold analyzeGoals
    rw [hg, hr]
    rfl

/-- C9: analyze_configuration divides by each goal's target amount and the
overall-progress computation of demonstrate_visitor_pattern divides by the
sum of all targets; both divisions are guarded by nothing, succeed under
the respective nonzero preconditions, and fail on a configuration holding a
goal with target amount 0. -/
theorem C9_unguarded_divisions :
    (∀ c : Configuration, (∀ g ∈ c.goals, g.target_amount.value ≠ 0) →
      (analyze_configuration c).isSome) ∧
    analyze_configuration zeroGoalCfg = none ∧
    (∀ c : Configuration, totalTargetAmount c ≠ 0 →
      (demonstrateOverallProgress c).isSome) ∧
    demonstrateOverallProgress zeroGoalCfg = none := by
  refine ⟨?_, ?_, ?_, ?_⟩
  · intro c h
    exact analyzeGoals_isSome c.goals h
  · rfl
  · intro c h
    have h2 : ¬ ((c.accept statisticsVisitor initStats).total_target_amount = 0) := h
    show (if (c.accept statisticsVisitor initStats).total_target_amount = 0
          then (none : Option ℚ)
          else some ((c.accept statisticsVisitor initStats).total_current_amount /
            (c.accept statisticsVisitor initStats).total_target_amount * 100)).isSome = true
    rw [if_neg h2]
    rfl
  · have hz : (zeroGoalCfg.accept statisticsVisitor initStats).total_target_amount = 0 := by
      unfold Configuration.accept statisticsVisitor initStats
      simp [zeroGoalCfg]
    show (if (zeroGoalCfg.accept statisticsVisitor initStats).total_target_amount = 0
          then (none : Option ℚ)
          else some ((zeroGoalCfg.accept statisticsVisitor initStats).total_current_amount /
            (zeroGoalCfg.accept statisticsVisitor initStats).total_target_amount * 100)) = none
    rw [if_pos hz]

/-- Witness for C9 at configurations with nonzero targets. -/
theorem C9_witness :
    (analyze_configuration demoConfig).isSome ∧
      (demonstrateOverallProgress oneGoalCfg).isSome :=
  ⟨C9_unguarded_divisions.1 demoConfig (by decide),
   C9_unguarded_divisions.2.2.1 oneGoalCfg (by
      unfold totalTargetAmount Configuration.accept statisticsVisitor initStats
      simp [oneGoalCfg])⟩



/-- Helper: folding addition from a seed adds the list sum. -/
theorem foldl_add_eq (l : List ℚ) : ∀ a : ℚ, l.foldl (· + ·) a = a + l.sum := by
  induction l with
  | nil => intro a; simp
  | cons x xs ih => intro a; simp [ih, add_assoc]

/-- Helper: sumTimes is the list sum. -/
theorem sumTimes_eq_sum (l : List ℚ) : sumTimes l = l.sum := by
  unfold sumTimes
  rw [foldl_add_eq]
  simp

/-- Helper: the running minimum is a lower bound of the seed and of every
element. -/
theorem minTimes_le (x : ℚ) (l : List ℚ) :
    minTimes x l ≤ x ∧ ∀ y ∈ l, minTimes x l ≤ y := by
  induction l generalizing x with
  | nil => exact ⟨le_refl x, by simp⟩
  | cons z zs ih =>
    have h := ih (min x z)
    refine ⟨le_trans h.1 (min_le_left x z), ?_⟩
    intro y hy
    rcases List.mem_cons.mp hy with h1 | h1
    · subst h1
      exact le_trans h.1 (min_le_right x y)
    · exact h.2 y h1

/-- Helper: the running maximum is an upper bound of the seed and of every
element. -/
theorem le_maxTimes (x : ℚ) (l : List ℚ) :
    x ≤ maxTimes x l ∧ ∀ y ∈ l, y ≤ maxTimes x l := by
  induction l generalizing x with
  | nil => exact ⟨le_refl x, by simp⟩
  | cons z zs ih =>
    have h := ih (max x z)
    refine ⟨le_trans (le_max_left x z) h.1, ?_⟩
    intro y hy
    rcases List.mem_cons.mp hy with h1 | h1
    · subst h1
      exact le_trans (le_max_right x y) h.1
    · exact h.2 y h1

/-- Helper: the benchmark loop over all-successful iterations collects every
elapsed time in order and retains the last config. -/
theorem benchmarkRun_ok (l : List (ℚ × Configuration)) :
    ∀ (acc : List ℚ) (c0 : Option Configuration),
      benchmarkRun (l.map Except.ok) (acc, c0) =
        .ok (acc ++ l.map Prod.fst, l.foldl (fun _ p => some p.2) c0) := by
  induction l with
  | nil => intro acc c0; simp [benchmarkRun]
  | cons p ps ih =>
    intro acc c0
    show benchmarkRun (ps.map Except.ok) (acc ++ [p.1], some p.2) = _
    rw [ih]
    simp

/-- Helper: the retained config after folding is the last pair's config. -/
theorem foldl_retained (ts : List (ℚ × Configuration)) :
    ∀ t0 : ℚ × Configuration,
      ts.foldl (fun _ p => some p.2) (some t0.2) = some ((ts.getLastD t0).2) := by
  induction ts with
  | nil => intro t0; rfl
  | cons a as ih =>
    intro t0
    show as.foldl (fun _ p => some p.2) (some a.2) = _
    rw [ih a, List.getLastD_cons]



/-- Helper: on all-successful iterations benchmark_parser reports the last
config and exactly sum/len, running min and running max of the times. -/
theorem benchmarkParser_ok (t0 : ℚ × Configuration) (ts : List (ℚ × Configuration)) :
    benchmarkParser ((t0 :: ts).map Except.ok) =
      .stats (ts.getLastD t0).2
        (sumTimes (t0.1 :: ts.map Prod.fst) / (t0.1 :: ts.map Prod.fst).length)
        (minTimes t0.1 (ts.map Prod.fst)) (maxTimes t0.1 (ts.map Prod.fst))
        (t0.1 :: ts.map Prod.fst).length := by
  unfold benchmarkParser
  rw [benchmarkRun_ok (t0 :: ts) [] none]
  simp only [List.nil_append, List.map_cons, List.foldl_cons]
  rw [foldl_retained ts t0]

/-- Helper: the average of a nonempty list of times lies between its running
minimum and running maximum. -/
theorem avg_between (t : ℚ) (ts : List ℚ) :
    minTimes t ts ≤ sumTimes (t :: ts) / (t :: ts).length ∧
      sumTimes (t :: ts) / (t :: ts).length ≤ maxTimes t ts := by
  have hlen : (0 : ℚ) < ((t :: ts).length : ℚ) := by
    have : 0 < (t :: ts).length := by simp
    exact_mod_cast this
  have hmin := minTimes_le t ts
  have hmax := le_maxTimes t ts
  have hlow : ∀ x ∈ t :: ts, minTimes t ts ≤ x := by
    intro x hx
    rcases List.mem_cons.mp hx with h1 | h1
    · subst h1; exact hmin.1
    · exact hmin.2 x h1
  have hhigh : ∀ x ∈ t :: ts, x ≤ maxTimes t ts := by
    intro x hx
    rcases List.mem_cons.mp hx with h1 | h1
    · subst h1; exact hmax.1
    · exact hmax.2 x h1
  constructor
  · rw [le_div_iff hlen, sumTimes_eq_sum]
    calc minTimes t ts * ((t :: ts).length : ℚ)
        = ((t :: ts).length : ℚ) * minTimes t ts := by ring
      _ = (t :: ts).length • minTimes t ts := by rw [nsmul_eq_mul]
      _ ≤ (t :: ts).sum := List.card_nsmul_le_sum (t :: ts) (minTimes t ts) hlow
  · rw [div_le_iff hlen, sumTimes_eq_sum]
    calc (t :: ts).sum
        ≤ (t :: ts).length • maxTimes t ts := List.sum_le_card_nsmul (t :: ts) (maxTimes t ts) hhigh
      _ = ((t :: ts).length : ℚ) * maxTimes t ts := by rw [nsmul_eq_mul]
      _ = maxTimes t ts * ((t :: ts).length : ℚ) := by ring

/-- Helper: the benchmark loop stops at the first raising iteration and
reports only that exception's text. -/
theorem benchmarkParser_error (pre : List (ℚ × Configuration)) (msg : String)
    (post : List (Except String (ℚ × Configuration))) :
    benchmarkParser (pre.map Except.ok ++ .error msg :: post) = .failed msg := by
  unfold benchmarkParser
  have h : ∀ (acc : List ℚ) (c0 : Option Configuration),
      benchmarkRun (pre.map Except.ok ++ .error msg :: post) (acc, c0) =
        .error msg := by
    induction pre with
    | nil => intro acc c0; rfl
    | cons p ps ih =>
      intro acc c0
      show benchmarkRun (ps.map Except.ok ++ .error msg :: post) (acc ++ [p.1], some p.2) = _
      exact ih (acc ++ [p.1]) (some p.2)
  rw [h [] none]

/-- C8: whenever benchmark_parser completes with no iteration raising, the
statistics are exactly: avg the sum of the per-iteration times divided by
the number of iterations, min and max their minimum and maximum, with
min ≤ avg ≤ max, and the retained config is the last iteration's; whenever
an iteration raises, the result carries exactly the exception's text and no
statistics or config. -/
theorem C8_benchmark_statistics :
    (∀ (t0 : ℚ × Configuration) (ts : List (ℚ × Configuration)),
      benchmarkParser ((t0 :: ts).map Except.ok) =
        .stats (ts.getLastD t0).2
          (sumTimes (t0.1 :: ts.map Prod.fst) / (t0.1 :: ts.map Prod.fst).length)
          (minTimes t0.1 (ts.map Prod.fst)) (maxTimes t0.1 (ts.map Prod.fst))
          (t0.1 :: ts.map Prod.fst).length ∧
      sumTimes (t0.1 :: ts.map Prod.fst) = (t0.1 :: ts.map Prod.fst).sum ∧
      minTimes t0.1 (ts.map Prod.fst) ≤
        sumTimes (t0.1 :: ts.map Prod.fst) / (t0.1 :: ts.map Prod.fst).length ∧
      sumTimes (t0.1 :: ts.map Prod.fst) / (t0.1 :: ts.map Prod.fst).length ≤
        maxTimes t0.1 (ts.map Prod.fst)) ∧
    (∀ (pre : List (ℚ × Configuration)) (msg : String)
       (post : List (Except String (ℚ × Configuration))),
      benchmarkParser (pre.map Except.ok ++ .error msg :: post) = .failed msg) :=
  ⟨fun t0 ts =>
    ⟨benchmarkParser_ok t0 ts, sumTimes_eq_sum _,
     (avg_between t0.1 (ts.map Prod.fst)).1, (avg_between t0.1 (ts.map Prod.fst)).2⟩,
   benchmarkParser_error⟩

end FundingDSL
